import Mathlib

/-!
# Fixed-size vector engine and its iterators

A shallow embedding of `fixed_size_vector_engine.hpp` and `vector_iterators.hpp`.

* `array<T, N>` is a list of `T` together with a proof that its length is `N`.
* A member function that writes `*this` returns the new value of `*this`; a member function that
  may throw returns the thrown-or-not outcome together with the value `*this` has when control
  leaves the function.  An argument taken by `const&` is a value that the function only reads.
* `static_cast<T>(x)` from the source element type is a function `cast : T2 → T`; the element type
  is arithmetic, so both value-initialisation `T()` and `static_cast<T>(0)` are `(0 : T)`.
* An unchecked subscript outside the array is undefined behaviour in C++: reading it gives `none`,
  and a write through it leaves the array as it is.
* `size_t` is an unsigned word of `w` bits and `ptrdiff_t` a signed word of `w` bits; every
  operation on them that can wrap is written with an explicit reduction modulo `2 ^ w`.
* A pointer to an engine is an address (`0` is `nullptr`); the engines alive at a moment are a
  partial map from addresses to engines.  A member function that takes another engine by
  non-`const` reference, and so can meet its own receiver there, works on that map.
* A `const` member function returns its result only; where the claim is about the receiver, a
  `call_` definition pairs the result with the receiver after the call.
-/

namespace STD_LA

/-! ## Exceptions and loops -/

/-- The exceptions the engine throws: `runtime_error(what)`. -/
inductive exception where
  | runtime_error (what : String)
  deriving DecidableEq, Repr

/-- Runs `body di` for `k` consecutive values of the loop counter, starting at `di`, and gives the
final state and the final value of the counter. -/
def for_loop_steps {σ : Type} (body : Nat → σ → σ) : Nat → Nat → σ → σ × Nat
  | 0, di, s => (s, di)
  | k + 1, di, s => for_loop_steps body k (di + 1) (body di s)

/-- The loop `for (; di < bound; ++di) body`, entered with counter `di` and state `s`: it makes
`bound - di` iterations (none when `bound ≤ di`).  `for_loop_unfold` shows that this is the loop:
it satisfies the equation `loop = if di < bound then (body; ++di; loop) else exit`. -/
def for_loop {σ : Type} (bound : Nat) (body : Nat → σ → σ) (di : Nat) (s : σ) : σ × Nat :=
  for_loop_steps body (bound - di) di s

/-! ## `fs_vector_engine<T, N>` -/

/-- The class `fs_vector_engine<T, N>`: its one data member `array<T, N> ma_elems`. -/
structure fs_vector_engine (T : Type) (N : Nat) where
  ma_elems : List T
  size_ok : ma_elems.length = N

namespace fs_vector_engine

variable {T T2 : Type} {N M : Nat}

/-- The statement `ma_elems[i] = v`. -/
def set_elem (self : fs_vector_engine T N) (i : Nat) (v : T) : fs_vector_engine T N :=
  ⟨self.ma_elems.set i v, by rw [List.length_set]; exact self.size_ok⟩

/-- The statement `ma_elems[di] = static_cast<T>(x)`, where `x` is what the read of the source
gave: a read outside the source gives nothing to store. -/
def store_cast (cast : T2 → T) (self : fs_vector_engine T N) (di : Nat) (x : Option T2) :
    fs_vector_engine T N :=
  match x with
  | some v => self.set_elem di (cast v)
  | none => self

/-- The default constructor `fs_vector_engine()`: `ma_elems()` value-initialises every element. -/
def ctor [Zero T] : fs_vector_engine T N :=
  ⟨List.replicate N 0, List.length_replicate N 0⟩

/-- The static member `capacity()`: `return N`. -/
def capacity (_T : Type) (N : Nat) : Nat := N

/-- The static member `elements()`: `return N`. -/
def elements (_T : Type) (N : Nat) : Nat := N

/-- Element access `operator ()(size_type i)`: `return ma_elems[i]`, with no bounds check. -/
def op_call (self : fs_vector_engine T N) (i : Nat) : Option T :=
  self.ma_elems[i]?

/-- The private `assign(fs_vector_engine<T2, N2> const& rhs)`.  `static_assert(N2 == N)` makes the
source an engine of the same length; the loop is
`for (i = 0; i < N; ++i) ma_elems[i] = static_cast<T>(rhs(i))`. -/
def assign_fs (cast : T2 → T) (self : fs_vector_engine T N) (rhs : fs_vector_engine T2 N) :
    fs_vector_engine T N :=
  (for_loop N (fun i acc => acc.store_cast cast i (rhs.op_call i)) 0 self).1

/-- The private `assign(ET2 const& rhs)`, the runtime-checked path, with `ET2` an engine that has
`M` elements in a member `ma_elems`.  It throws before any write when the element counts differ;
otherwise `for (; di < N; ++di, ++si) ma_elems[di] = static_cast<T>(rhs.ma_elems[si])` with
`di = 0`, `si = 0` on entry.  The loop state is the engine and `si`. -/
def assign_engine (cast : T2 → T) (self : fs_vector_engine T N) (rhs : fs_vector_engine T2 M) :
    Except exception Unit × fs_vector_engine T N :=
  if elements T2 M ≠ elements T N then
    (Except.error (exception.runtime_error "invalid size"), self)
  else
    (Except.ok (),
      (for_loop N (fun di acc => (acc.1.store_cast cast di rhs.ma_elems[acc.2]?, acc.2 + 1))
        0 (self, 0)).1.1)

/-- The private `assign(initializer_list<T2> rhs)`.  It throws before any write when
`rhs.size() > N`; otherwise, with `count = min(N, rhs.size())`, `di = 0` and `iter = rhs.begin()`
(an offset into `rhs`), it runs
`for (; di < count; ++di, ++iter) ma_elems[di] = static_cast<T>(*iter)` and then, from the value
`di` has reached, `for (; di < N; ++di) ma_elems[di] = static_cast<T>(0)`. -/
def assign_list [Zero T] (cast : T2 → T) (self : fs_vector_engine T N) (rhs : List T2) :
    Except exception Unit × fs_vector_engine T N :=
  if rhs.length > N then
    (Except.error (exception.runtime_error "invalid size"), self)
  else
    let count := min N rhs.length
    let copied :=
      for_loop count (fun di acc => (acc.1.store_cast cast di rhs[acc.2]?, acc.2 + 1))
        0 (self, 0)
    (Except.ok (), (for_loop N (fun di acc => acc.set_elem di 0) copied.2 copied.1.1).1)

/-- The constructor `fs_vector_engine(fs_vector_engine<T2, N2> const& rhs)`:
`ma_elems()` and then `assign(rhs)`. -/
def ctor_fs [Zero T] (cast : T2 → T) (rhs : fs_vector_engine T2 N) : fs_vector_engine T N :=
  assign_fs cast ctor rhs

/-- The constructor `fs_vector_engine(ET2 const& rhs)`: `ma_elems()` and then `assign(rhs)`; an
exception thrown by `assign` leaves no object. -/
def ctor_engine [Zero T] (cast : T2 → T) (rhs : fs_vector_engine T2 M) :
    Except exception (fs_vector_engine T N) :=
  match assign_engine cast ctor rhs with
  | (Except.ok _, self) => Except.ok self
  | (Except.error ex, _) => Except.error ex

/-- The constructor `fs_vector_engine(initializer_list<T2> rhs)`: `ma_elems()` and then
`assign(rhs)`; an exception thrown by `assign` leaves no object. -/
def ctor_list [Zero T] (cast : T2 → T) (rhs : List T2) :
    Except exception (fs_vector_engine T N) :=
  match assign_list cast ctor rhs with
  | (Except.ok _, self) => Except.ok self
  | (Except.error ex, _) => Except.error ex

/-- The operator `operator =(fs_vector_engine<T2, N2> const& rhs)`: `assign(rhs); return *this`. -/
def op_assign_fs (cast : T2 → T) (self : fs_vector_engine T N) (rhs : fs_vector_engine T2 N) :
    fs_vector_engine T N :=
  assign_fs cast self rhs

/-- The operator `operator =(ET2 const& rhs)`: `assign(rhs); return *this`. -/
def op_assign_engine (cast : T2 → T) (self : fs_vector_engine T N) (rhs : fs_vector_engine T2 M) :
    Except exception Unit × fs_vector_engine T N :=
  assign_engine cast self rhs

/-- The operator `operator =(initializer_list<T2> rhs)`: `assign(rhs); return *this`. -/
def op_assign_list [Zero T] (cast : T2 → T) (self : fs_vector_engine T N) (rhs : List T2) :
    Except exception Unit × fs_vector_engine T N :=
  assign_list cast self rhs

end fs_vector_engine

/-! ## Machine words -/

/-- Conversion of an integer value to `size_type`, an unsigned word of `w` bits. -/
def to_size_type (w : Nat) (x : Int) : Nat :=
  (x % 2 ^ w).toNat

/-- Conversion of an integer value to `difference_type`, a signed word of `w` bits in two's
complement. -/
def to_difference_type (w : Nat) (x : Int) : Int :=
  if x % 2 ^ w < 2 ^ (w - 1) then x % 2 ^ w else x % 2 ^ w - 2 ^ w

/-- The null pointer. -/
def nullptr : Nat := 0

/-- The engines alive in memory, by address; nothing lives at `nullptr`. -/
def engine_store (ET : Type) : Type := Nat → Option ET

/-- The expression `(*p)(i)`: the engine at address `p`, subscripted at `i`.  Nothing is read
through `nullptr`, through a pointer to no live engine, or at a subscript outside the engine. -/
def engine_at {T : Type} {N : Nat} (store : engine_store (fs_vector_engine T N)) (p : Nat)
    (i : Nat) : Option T :=
  if p = nullptr then none
  else
    match store p with
    | some eng => eng.op_call i
    | none => none

/-! ## Modifiers of `fs_vector_engine<T, N>` -/

namespace detail

/-- Modelled from the spec: `detail::la_swap(t0, t1)`, which the engine calls and whose definition
is not in the two headers, exchanges two elements.  The argument is the pair of the values that
the objects `t0` and `t1` hold before the call, the result the pair of the values they hold after
it. -/
def la_swap {T : Type} (t : T × T) : T × T :=
  (t.2, t.1)

end detail

namespace fs_vector_engine

variable {T : Type} {N : Nat}

/-- The member `swap_elements(size_type i, size_type j)`:
`detail::la_swap(ma_elems[i], ma_elems[j])`, with no bounds check.  Both elements are read, and
what `la_swap` leaves in its first argument is stored at `i`, what it leaves in its second at
`j`. -/
def swap_elements (self : fs_vector_engine T N) (i j : Nat) : fs_vector_engine T N :=
  match self.ma_elems[i]?, self.ma_elems[j]? with
  | some x, some y =>
    (self.set_elem i (detail.la_swap (x, y)).1).set_elem j (detail.la_swap (x, y)).2
  | _, _ => self

/-- The body of the loop of `swap`: `detail::la_swap(ma_elems[i], rhs.ma_elems[i])`.  The state is
the pair of `*this` and `rhs`, two different objects. -/
def swap_body (i : Nat) (acc : fs_vector_engine T N × fs_vector_engine T N) :
    fs_vector_engine T N × fs_vector_engine T N :=
  match acc.1.ma_elems[i]?, acc.2.ma_elems[i]? with
  | some x, some y =>
    (acc.1.set_elem i (detail.la_swap (x, y)).1, acc.2.set_elem i (detail.la_swap (x, y)).2)
  | _, _ => acc

/-- The member `swap(fs_vector_engine& rhs)`, called on the engine at address `p_this` (the
pointer `this`) with `rhs` the engine at address `p_rhs`:
`if (&rhs != this) for (i = 0; i < N; ++i) detail::la_swap(ma_elems[i], rhs.ma_elems[i])`.
The result is the memory after the call; a reference to no live engine leaves it as it is. -/
def swap (store : engine_store (fs_vector_engine T N)) (p_this p_rhs : Nat) :
    engine_store (fs_vector_engine T N) :=
  if p_rhs ≠ p_this then
    match store p_this, store p_rhs with
    | some self, some rhs =>
      fun p =>
        if p = p_this then some (for_loop N swap_body 0 (self, rhs)).1.1
        else if p = p_rhs then some (for_loop N swap_body 0 (self, rhs)).1.2
        else store p
    | _, _ => store
  else store

end fs_vector_engine

namespace detail

/-! ## `vector_iterator<ET>`, for `ET = fs_vector_engine<T, N>` -/

/-- The class `vector_iterator<ET>`: the engine pointer, the current position and the upper
bound. -/
structure vector_iterator (T : Type) (N : Nat) where
  mp_engine : Nat
  m_curr : Nat
  m_upper : Nat
  deriving DecidableEq, Repr

namespace vector_iterator

variable {T : Type} {N : Nat}

/-- The default constructor `vector_iterator()`. -/
def ctor : vector_iterator T N :=
  ⟨nullptr, 0, 0⟩

/-- The constructor `vector_iterator(engine_type& eng)`, with `p_eng = &eng`. -/
def ctor_engine (w : Nat) (p_eng : Nat) : vector_iterator T N :=
  ⟨p_eng, 0, to_size_type w (fs_vector_engine.elements T N)⟩

/-- The constructors `vector_iterator(engine_type& eng, size_type curr, size_type upper)`, with
`p_eng = &eng`, and `vector_iterator(engine_type* p_eng, size_type curr, size_type upper)`. -/
def ctor_range (p_eng : Nat) (curr upper : Nat) : vector_iterator T N :=
  ⟨p_eng, curr, upper⟩

/-- The operator `operator *()`: `return (*mp_engine)(m_curr)`. -/
def op_deref (store : engine_store (fs_vector_engine T N)) (self : vector_iterator T N) :
    Option T :=
  engine_at store self.mp_engine self.m_curr

/-- The operator `operator [](size_type n)`: `return (*mp_engine)(m_curr + n)`. -/
def op_index (w : Nat) (store : engine_store (fs_vector_engine T N)) (self : vector_iterator T N)
    (n : Nat) : Option T :=
  engine_at store self.mp_engine (to_size_type w ((self.m_curr : Int) + (n : Int)))

/-- The operator `operator -(vector_iterator const& p)`: `return m_curr - p.m_curr`, an unsigned
difference returned as `difference_type`. -/
def op_diff (w : Nat) (self p : vector_iterator T N) : Int :=
  to_difference_type w (to_size_type w ((self.m_curr : Int) - (p.m_curr : Int)))

/-- The operator `operator -(difference_type n)`:
`return vector_iterator(mp_engine, m_curr - n, m_upper)`. -/
def op_sub (w : Nat) (self : vector_iterator T N) (n : Int) : vector_iterator T N :=
  ctor_range self.mp_engine (to_size_type w ((self.m_curr : Int) - n)) self.m_upper

/-- The operator `operator +(difference_type n)`:
`return vector_iterator(mp_engine, m_curr + n, m_upper)`. -/
def op_add (w : Nat) (self : vector_iterator T N) (n : Int) : vector_iterator T N :=
  ctor_range self.mp_engine (to_size_type w ((self.m_curr : Int) + n)) self.m_upper

/-- The call `it - n` as its caller sees it: the iterator returned, and the receiver after the
call.  `operator -(difference_type)` is a `const` member whose body is the one `return`. -/
def call_op_sub (w : Nat) (self : vector_iterator T N) (n : Int) :
    vector_iterator T N × vector_iterator T N :=
  (op_sub w self n, self)

/-- The call `it + n` as its caller sees it: the iterator returned, and the receiver after the
call.  `operator +(difference_type)` is a `const` member whose body is the one `return`. -/
def call_op_add (w : Nat) (self : vector_iterator T N) (n : Int) :
    vector_iterator T N × vector_iterator T N :=
  (op_add w self n, self)

/-- The operator `operator ++()`: `++m_curr; return *this`. -/
def op_pre_inc (w : Nat) (self : vector_iterator T N) : vector_iterator T N :=
  { self with m_curr := to_size_type w ((self.m_curr : Int) + 1) }

/-- The operator `operator ++(int)`: `return vector_iterator(mp_engine, m_curr + 1, m_upper)`.
The pair is the returned iterator and the receiver after the call. -/
def op_post_inc (w : Nat) (self : vector_iterator T N) :
    vector_iterator T N × vector_iterator T N :=
  (ctor_range self.mp_engine (to_size_type w ((self.m_curr : Int) + 1)) self.m_upper, self)

/-- The operator `operator --()`: `--m_curr; return *this`. -/
def op_pre_dec (w : Nat) (self : vector_iterator T N) : vector_iterator T N :=
  { self with m_curr := to_size_type w ((self.m_curr : Int) - 1) }

/-- The operator `operator --(int)`: `return vector_iterator(mp_engine, m_curr - 1, m_upper)`.
The pair is the returned iterator and the receiver after the call. -/
def op_post_dec (w : Nat) (self : vector_iterator T N) :
    vector_iterator T N × vector_iterator T N :=
  (ctor_range self.mp_engine (to_size_type w ((self.m_curr : Int) - 1)) self.m_upper, self)

/-- The operator `operator +=(difference_type n)`: `m_curr += n; return *this`. -/
def op_add_assign (w : Nat) (self : vector_iterator T N) (n : Int) : vector_iterator T N :=
  { self with m_curr := to_size_type w ((self.m_curr : Int) + n) }

/-- The operator `operator -=(difference_type n)`: `m_curr -= n; return *this`. -/
def op_sub_assign (w : Nat) (self : vector_iterator T N) (n : Int) : vector_iterator T N :=
  { self with m_curr := to_size_type w ((self.m_curr : Int) - n) }

/-- The helper `equals`: `return mp_engine == p.mp_engine && m_curr == p.m_curr`. -/
def equals (self p : vector_iterator T N) : Bool :=
  self.mp_engine == p.mp_engine && self.m_curr == p.m_curr

/-- The helper `greater_than`: `return mp_engine == p.mp_engine && m_curr > p.m_curr`. -/
def greater_than (self p : vector_iterator T N) : Bool :=
  self.mp_engine == p.mp_engine && decide (self.m_curr > p.m_curr)

/-- The helper `less_than`: `return mp_engine == p.mp_engine && m_curr < p.m_curr`. -/
def less_than (self p : vector_iterator T N) : Bool :=
  self.mp_engine == p.mp_engine && decide (self.m_curr < p.m_curr)

/-- The operator `==`: `return lhs.equals(rhs)`. -/
def op_eq (lhs rhs : vector_iterator T N) : Bool := lhs.equals rhs

/-- The operator `!=`: `return !lhs.equals(rhs)`. -/
def op_ne (lhs rhs : vector_iterator T N) : Bool := !lhs.equals rhs

/-- The operator `<`: `return lhs.less_than(rhs)`. -/
def op_lt (lhs rhs : vector_iterator T N) : Bool := lhs.less_than rhs

/-- The operator `<=`: `return !lhs.greater_than(rhs)`. -/
def op_le (lhs rhs : vector_iterator T N) : Bool := !lhs.greater_than rhs

/-- The operator `>`: `return lhs.greater_than(rhs)`. -/
def op_gt (lhs rhs : vector_iterator T N) : Bool := lhs.greater_than rhs

/-- The operator `>=`: `return !lhs.less_than(rhs)`. -/
def op_ge (lhs rhs : vector_iterator T N) : Bool := !lhs.less_than rhs

end vector_iterator

/-! ## `vector_const_iterator<ET>`, for `ET = fs_vector_engine<T, N>` -/

/-- The class `vector_const_iterator<ET>`: the pointer to a `const` engine, the current position
and the upper bound. -/
structure vector_const_iterator (T : Type) (N : Nat) where
  mp_engine : Nat
  m_curr : Nat
  m_upper : Nat
  deriving DecidableEq, Repr

namespace vector_const_iterator

variable {T : Type} {N : Nat}

/-- The default constructor `vector_const_iterator()`. -/
def ctor : vector_const_iterator T N :=
  ⟨nullptr, 0, 0⟩

/-- The constructor `vector_const_iterator(engine_type const& eng)`, with `p_eng = &eng`. -/
def ctor_engine (w : Nat) (p_eng : Nat) : vector_const_iterator T N :=
  ⟨p_eng, 0, to_size_type w (fs_vector_engine.elements T N)⟩

/-- The constructors
`vector_const_iterator(engine_type const& eng, size_type curr, size_type upper)`, with
`p_eng = &eng`, and
`vector_const_iterator(engine_type const* p_eng, size_type curr, size_type upper)`. -/
def ctor_range (p_eng : Nat) (curr upper : Nat) : vector_const_iterator T N :=
  ⟨p_eng, curr, upper⟩

/-- The constructor `vector_const_iterator(vector_iterator<ET> const& p)`: the three members are
initialised from those of `p`. -/
def ctor_iterator (p : vector_iterator T N) : vector_const_iterator T N :=
  ⟨p.mp_engine, p.m_curr, p.m_upper⟩

/-- The operator `operator *()`: `return (*mp_engine)(m_curr)`. -/
def op_deref (store : engine_store (fs_vector_engine T N)) (self : vector_const_iterator T N) :
    Option T :=
  engine_at store self.mp_engine self.m_curr

/-- The operator `operator [](size_type n)`: `return (*mp_engine)(m_curr + n)`. -/
def op_index (w : Nat) (store : engine_store (fs_vector_engine T N))
    (self : vector_const_iterator T N) (n : Nat) : Option T :=
  engine_at store self.mp_engine (to_size_type w ((self.m_curr : Int) + (n : Int)))

/-- The operator `operator -(vector_const_iterator const& p)`: `return m_curr - p.m_curr`, an
unsigned difference returned as `difference_type`. -/
def op_diff (w : Nat) (self p : vector_const_iterator T N) : Int :=
  to_difference_type w (to_size_type w ((self.m_curr : Int) - (p.m_curr : Int)))

/-- The operator `operator -(difference_type n)`:
`return vector_const_iterator(mp_engine, m_curr - n, m_upper)`. -/
def op_sub (w : Nat) (self : vector_const_iterator T N) (n : Int) : vector_const_iterator T N :=
  ctor_range self.mp_engine (to_size_type w ((self.m_curr : Int) - n)) self.m_upper

/-- The operator `operator +(difference_type n)`:
`return vector_const_iterator(mp_engine, m_curr + n, m_upper)`. -/
def op_add (w : Nat) (self : vector_const_iterator T N) (n : Int) : vector_const_iterator T N :=
  ctor_range self.mp_engine (to_size_type w ((self.m_curr : Int) + n)) self.m_upper

/-- The call `it - n` as its caller sees it: the iterator returned, and the receiver after the
call.  `operator -(difference_type)` is a `const` member whose body is the one `return`. -/
def call_op_sub (w : Nat) (self : vector_const_iterator T N) (n : Int) :
    vector_const_iterator T N × vector_const_iterator T N :=
  (op_sub w self n, self)

/-- The call `it + n` as its caller sees it: the iterator returned, and the receiver after the
call.  `operator +(difference_type)` is a `const` member whose body is the one `return`. -/
def call_op_add (w : Nat) (self : vector_const_iterator T N) (n : Int) :
    vector_const_iterator T N × vector_const_iterator T N :=
  (op_add w self n, self)

/-- The operator `operator ++()`: `++m_curr; return *this`. -/
def op_pre_inc (w : Nat) (self : vector_const_iterator T N) : vector_const_iterator T N :=
  { self with m_curr := to_size_type w ((self.m_curr : Int) + 1) }

/-- The operator `operator ++(int)`: `return vector_const_iterator(mp_engine, m_curr + 1, m_upper)`.
The pair is the returned iterator and the receiver after the call. -/
def op_post_inc (w : Nat) (self : vector_const_iterator T N) :
    vector_const_iterator T N × vector_const_iterator T N :=
  (ctor_range self.mp_engine (to_size_type w ((self.m_curr : Int) + 1)) self.m_upper, self)

/-- The operator `operator --()`: `--m_curr; return *this`. -/
def op_pre_dec (w : Nat) (self : vector_const_iterator T N) : vector_const_iterator T N :=
  { self with m_curr := to_size_type w ((self.m_curr : Int) - 1) }

/-- The operator `operator --(int)`: `return vector_const_iterator(mp_engine, m_curr - 1, m_upper)`.
The pair is the returned iterator and the receiver after the call. -/
def op_post_dec (w : Nat) (self : vector_const_iterator T N) :
    vector_const_iterator T N × vector_const_iterator T N :=
  (ctor_range self.mp_engine (to_size_type w ((self.m_curr : Int) - 1)) self.m_upper, self)

/-- The operator `operator +=(difference_type n)`: `m_curr += n; return *this`. -/
def op_add_assign (w : Nat) (self : vector_const_iterator T N) (n : Int) :
    vector_const_iterator T N :=
  { self with m_curr := to_size_type w ((self.m_curr : Int) + n) }

/-- The operator `operator -=(difference_type n)`: `m_curr -= n; return *this`. -/
def op_sub_assign (w : Nat) (self : vector_const_iterator T N) (n : Int) :
    vector_const_iterator T N :=
  { self with m_curr := to_size_type w ((self.m_curr : Int) - n) }

/-- The helper `equals`: `return mp_engine == p.mp_engine && m_curr == p.m_curr`. -/
def equals (self p : vector_const_iterator T N) : Bool :=
  self.mp_engine == p.mp_engine && self.m_curr == p.m_curr

/-- The helper `greater_than`: `return mp_engine == p.mp_engine && m_curr > p.m_curr`. -/
def greater_than (self p : vector_const_iterator T N) : Bool :=
  self.mp_engine == p.mp_engine && decide (self.m_curr > p.m_curr)

/-- The helper `less_than`: `return mp_engine == p.mp_engine && m_curr < p.m_curr`. -/
def less_than (self p : vector_const_iterator T N) : Bool :=
  self.mp_engine == p.mp_engine && decide (self.m_curr < p.m_curr)

/-- The operator `==`: `return lhs.equals(rhs)`. -/
def op_eq (lhs rhs : vector_const_iterator T N) : Bool := lhs.equals rhs

/-- The operator `!=`: `return !lhs.equals(rhs)`. -/
def op_ne (lhs rhs : vector_const_iterator T N) : Bool := !lhs.equals rhs

/-- The operator `<`: `return lhs.less_than(rhs)`. -/
def op_lt (lhs rhs : vector_const_iterator T N) : Bool := lhs.less_than rhs

/-- The operator `<=`: `return !lhs.greater_than(rhs)`. -/
def op_le (lhs rhs : vector_const_iterator T N) : Bool := !lhs.greater_than rhs

/-- The operator `>`: `return lhs.greater_than(rhs)`. -/
def op_gt (lhs rhs : vector_const_iterator T N) : Bool := lhs.greater_than rhs

/-- The operator `>=`: `return !lhs.less_than(rhs)`. -/
def op_ge (lhs rhs : vector_const_iterator T N) : Bool := !lhs.less_than rhs

end vector_const_iterator

end detail

/-! ## A concrete memory -/

/-- A memory with one live engine, `[10, 20, 30]` at address 1. -/
def example_store : engine_store (fs_vector_engine Int 3) :=
  fun p => if p = 1 then some ⟨[10, 20, 30], rfl⟩ else none

/-- A memory with two live engines, `[10, 20, 30]` at address 1 and `[1, 2, 3]` at address 2. -/
def two_engine_store : engine_store (fs_vector_engine Int 3) :=
  fun p =>
    if p = 1 then some ⟨[10, 20, 30], rfl⟩
    else if p = 2 then some ⟨[1, 2, 3], rfl⟩
    else none

end STD_LA

/-! # Theorems -/

namespace STD_LA

/-! ## Loops -/

/-- The loop equation: `for (; di < bound; ++di) body` tests `di < bound`; when the test holds it
runs the body, increments the counter and loops, and otherwise it exits with the state and the
counter it has. -/
theorem for_loop_unfold {σ : Type} (bound : Nat) (body : Nat → σ → σ) (di : Nat) (s : σ) :
    for_loop bound body di s =
      if di < bound then for_loop bound body (di + 1) (body di s) else (s, di) := by
  unfold for_loop
  split
  · next h =>
    have hk : bound - di = (bound - (di + 1)) + 1 := by omega
    rw [hk]
    rfl
  · next h =>
    have hk : bound - di = 0 := by omega
    rw [hk]
    rfl

namespace fs_vector_engine

variable {T T2 : Type} {N M : Nat}

theorem ma_elems_set_elem (e : fs_vector_engine T N) (i : Nat) (v : T) :
    (e.set_elem i v).ma_elems = e.ma_elems.set i v := rfl

/-- What one converting store leaves at subscript `i`, when the source read succeeded. -/
theorem getElem?_store_cast (cast : T2 → T) (e : fs_vector_engine T N) (di i : Nat) (v : T2) :
    (e.store_cast cast di (some v)).ma_elems[i]? =
      if di = i ∧ i < N then some (cast v) else e.ma_elems[i]? := by
  show (e.ma_elems.set di (cast v))[i]? = _
  rw [List.getElem?_set]
  by_cases h : di = i
  · subst h
    by_cases hN : di < N
    · simp [hN, e.size_ok]
    · have : e.ma_elems[di]? = none := by
        rw [List.getElem?_eq_none_iff, e.size_ok]; omega
      simp [hN, e.size_ok, this]
  · simp [h]

/-- The two-counter copy loop run for `k` iterations from `(di, si)`, all reads inside `src`. -/
theorem copy_steps (cast : T2 → T) (src : List T2) :
    ∀ (k di si : Nat) (e : fs_vector_engine T N), si + k ≤ src.length →
      (for_loop_steps (fun di (acc : fs_vector_engine T N × Nat) =>
          (acc.1.store_cast cast di src[acc.2]?, acc.2 + 1)) k di (e, si)).2 = di + k ∧
      ∀ i, (for_loop_steps (fun di (acc : fs_vector_engine T N × Nat) =>
          (acc.1.store_cast cast di src[acc.2]?, acc.2 + 1)) k di (e, si)).1.1.ma_elems[i]? =
        if di ≤ i ∧ i < di + k ∧ i < N then (src[si + (i - di)]?).map cast
        else e.ma_elems[i]? := by
  intro k
  induction k with
  | zero =>
    intro di si e _
    refine ⟨rfl, fun i => ?_⟩
    have : ¬ (di ≤ i ∧ i < di + 0 ∧ i < N) := by omega
    simp only [for_loop_steps, if_neg this]
  | succ k ih =>
    intro di si e hsi
    have hlt : si < src.length := by omega
    have hread : src[si]? = some src[si] := List.getElem?_eq_getElem hlt
    obtain ⟨h1, h2⟩ := ih (di + 1) (si + 1) (e.store_cast cast di (some src[si])) (by omega)
    simp only [for_loop_steps, hread]
    refine ⟨by rw [h1]; omega, fun i => ?_⟩
    rw [h2 i, getElem?_store_cast]
    by_cases hi : di = i
    · subst hi
      by_cases hN : di < N
      · have c1 : ¬ (di + 1 ≤ di ∧ di < di + 1 + k ∧ di < N) := by omega
        have c2 : di ≤ di ∧ di < di + (k + 1) ∧ di < N := by omega
        have c3 : di = di ∧ di < N := ⟨rfl, hN⟩
        rw [if_neg c1, if_pos c2, if_pos c3]
        simp [hread]
      · have c1 : ¬ (di + 1 ≤ di ∧ di < di + 1 + k ∧ di < N) := by omega
        have c2 : ¬ (di ≤ di ∧ di < di + (k + 1) ∧ di < N) := by omega
        have c3 : ¬ (di = di ∧ di < N) := by omega
        rw [if_neg c1, if_neg c2, if_neg c3]
    · have c3 : ¬ (di = i ∧ i < N) := by omega
      rw [if_neg c3]
      by_cases hc : di + 1 ≤ i ∧ i < di + 1 + k ∧ i < N
      · have c2 : di ≤ i ∧ i < di + (k + 1) ∧ i < N := by omega
        have hidx : si + 1 + (i - (di + 1)) = si + (i - di) := by omega
        rw [if_pos hc, if_pos c2, hidx]
      · have c2 : ¬ (di ≤ i ∧ i < di + (k + 1) ∧ i < N) := by omega
        rw [if_neg hc, if_neg c2]

/-- The converting loop of the same-length path run for `k` iterations from `di`. -/
theorem convert_steps (cast : T2 → T) (rhs : fs_vector_engine T2 N) :
    ∀ (k di : Nat) (e : fs_vector_engine T N), di + k ≤ N →
      ∀ i, (for_loop_steps (fun i (acc : fs_vector_engine T N) =>
          acc.store_cast cast i (rhs.op_call i)) k di e).1.ma_elems[i]? =
        if di ≤ i ∧ i < di + k then (rhs.op_call i).map cast else e.ma_elems[i]? := by
  intro k
  induction k with
  | zero =>
    intro di e _ i
    have : ¬ (di ≤ i ∧ i < di + 0) := by omega
    simp only [for_loop_steps, if_neg this]
  | succ k ih =>
    intro di e hk i
    have hlt : di < rhs.ma_elems.length := by rw [rhs.size_ok]; omega
    have hread : rhs.op_call di = some rhs.ma_elems[di] := List.getElem?_eq_getElem hlt
    have h2 := ih (di + 1) (e.store_cast cast di (some rhs.ma_elems[di])) (by omega) i
    simp only [for_loop_steps, hread]
    rw [h2, getElem?_store_cast]
    by_cases hi : di = i
    · subst hi
      have c1 : ¬ (di + 1 ≤ di ∧ di < di + 1 + k) := by omega
      have c2 : di ≤ di ∧ di < di + (k + 1) := by omega
      have c3 : di = di ∧ di < N := ⟨rfl, by omega⟩
      rw [if_neg c1, if_pos c2, if_pos c3, hread]
      rfl
    · have c3 : ¬ (di = i ∧ i < N) := by omega
      rw [if_neg c3]
      by_cases hc : di + 1 ≤ i ∧ i < di + 1 + k
      · have c2 : di ≤ i ∧ i < di + (k + 1) := by omega
        rw [if_pos hc, if_pos c2]
      · have c2 : ¬ (di ≤ i ∧ i < di + (k + 1)) := by omega
        rw [if_neg hc, if_neg c2]

/-- The zero-filling loop run for `k` iterations from `di`. -/
theorem zero_steps [Zero T] :
    ∀ (k di : Nat) (e : fs_vector_engine T N),
      ∀ i, (for_loop_steps (fun di (acc : fs_vector_engine T N) =>
          acc.set_elem di 0) k di e).1.ma_elems[i]? =
        if di ≤ i ∧ i < di + k ∧ i < N then some 0 else e.ma_elems[i]? := by
  intro k
  induction k with
  | zero =>
    intro di e i
    have : ¬ (di ≤ i ∧ i < di + 0 ∧ i < N) := by omega
    simp only [for_loop_steps, if_neg this]
  | succ k ih =>
    intro di e i
    have h2 := ih (di + 1) (e.set_elem di 0) i
    have h3 : (e.set_elem di 0).ma_elems[i]? =
        if di = i ∧ i < N then some (0 : T) else e.ma_elems[i]? :=
      getElem?_store_cast (fun x : T => x) e di i 0
    simp only [for_loop_steps]
    rw [h2, h3]
    by_cases hi : di = i ∧ i < N
    · have c1 : ¬ (di + 1 ≤ i ∧ i < di + 1 + k ∧ i < N) := by omega
      have c2 : di ≤ i ∧ i < di + (k + 1) ∧ i < N := by omega
      rw [if_neg c1, if_pos c2, if_pos hi]
    · rw [if_neg hi]
      by_cases hc : di + 1 ≤ i ∧ i < di + 1 + k ∧ i < N
      · have c2 : di ≤ i ∧ i < di + (k + 1) ∧ i < N := by omega
        rw [if_pos hc, if_pos c2]
      · have c2 : ¬ (di ≤ i ∧ i < di + (k + 1) ∧ i < N) := by omega
        rw [if_neg hc, if_neg c2]

/-- Every subscript of the engine after `assign(initializer_list)` with a list that fits. -/
theorem assign_list_elems [Zero T] (cast : T2 → T) (self : fs_vector_engine T N) (rhs : List T2)
    (hL : rhs.length ≤ N) :
    (assign_list cast self rhs).1 = Except.ok () ∧
    ∀ i, (assign_list cast self rhs).2.op_call i =
      if i < rhs.length then (rhs[i]?).map cast else if i < N then some 0 else none := by
  have hnot : ¬ rhs.length > N := by omega
  have hmin : min N rhs.length = rhs.length := by omega
  unfold assign_list
  rw [if_neg hnot]
  refine ⟨rfl, fun i => ?_⟩
  simp only [hmin]
  obtain ⟨hdi, hcopy⟩ := copy_steps cast rhs (rhs.length - 0) 0 0 self (by omega)
  unfold for_loop op_call
  rw [hdi, zero_steps, hcopy]
  by_cases h1 : i < rhs.length
  · have c1 : ¬ (0 + (rhs.length - 0) ≤ i ∧
        i < 0 + (rhs.length - 0) + (N - (0 + (rhs.length - 0))) ∧ i < N) := by
      omega
    have c2 : 0 ≤ i ∧ i < 0 + (rhs.length - 0) ∧ i < N := by omega
    have hidx : 0 + (i - 0) = i := by omega
    rw [if_neg c1, if_pos c2, if_pos h1, hidx]
  · rw [if_neg h1]
    by_cases h2 : i < N
    · have c1 : 0 + (rhs.length - 0) ≤ i ∧
          i < 0 + (rhs.length - 0) + (N - (0 + (rhs.length - 0))) ∧ i < N := by
        omega
      rw [if_pos c1, if_pos h2]
    · have c1 : ¬ (0 + (rhs.length - 0) ≤ i ∧
          i < 0 + (rhs.length - 0) + (N - (0 + (rhs.length - 0))) ∧ i < N) := by
        omega
      have c2 : ¬ (0 ≤ i ∧ i < 0 + (rhs.length - 0) ∧ i < N) := by omega
      rw [if_neg c1, if_neg c2, if_neg h2, List.getElem?_eq_none_iff, self.size_ok]
      omega

end fs_vector_engine

/-! ## Machine words: lemmas -/

theorem two_pow_pos_int (w : Nat) : (0 : Int) < 2 ^ w := by positivity

/-- The value of a `size_type` conversion, as an integer. -/
theorem to_size_type_cast (w : Nat) (x : Int) : ((to_size_type w x : Nat) : Int) = x % 2 ^ w := by
  unfold to_size_type
  exact Int.toNat_of_nonneg (Int.emod_nonneg x (ne_of_gt (two_pow_pos_int w)))

theorem to_size_type_lt (w : Nat) (x : Int) : to_size_type w x < 2 ^ w := by
  have h := to_size_type_cast w x
  have h2 : x % 2 ^ w < 2 ^ w := Int.emod_lt_of_pos x (two_pow_pos_int w)
  have h3 : ((to_size_type w x : Nat) : Int) < ((2 ^ w : Nat) : Int) := by
    rw [h]; push_cast; exact h2
  exact_mod_cast h3

/-- A value that fits the unsigned word is left as it is. -/
theorem to_size_type_of_lt (w : Nat) (n : Nat) (h : n < 2 ^ w) : to_size_type w (n : Int) = n := by
  have h1 : ((to_size_type w n : Nat) : Int) = (n : Int) := by
    rw [to_size_type_cast]
    apply Int.emod_eq_of_lt (Int.natCast_nonneg n)
    exact_mod_cast h
  exact_mod_cast h1

/-- The signed conversion only looks at its argument modulo `2 ^ w`. -/
theorem to_difference_type_emod (w : Nat) (x : Int) :
    to_difference_type w (x % 2 ^ w) = to_difference_type w x := by
  unfold to_difference_type
  rw [Int.emod_emod]

/-- A value in the range of the signed word is left as it is. -/
theorem to_difference_type_of_range (w : Nat) (k : Int) (hw : 0 < w)
    (hlo : -(2 ^ (w - 1)) ≤ k) (hhi : k < 2 ^ (w - 1)) : to_difference_type w k = k := by
  have hP : (2 : Int) ^ w = 2 * 2 ^ (w - 1) := by
    obtain ⟨v, rfl⟩ : ∃ v, w = v + 1 := ⟨w - 1, by omega⟩
    simp [pow_succ, mul_comm]
  have hH : (0 : Int) < 2 ^ (w - 1) := by positivity
  unfold to_difference_type
  by_cases hk : 0 ≤ k
  · have hm : k % 2 ^ w = k := Int.emod_eq_of_lt hk (by omega)
    rw [hm, if_pos hhi]
  · have hm : k % 2 ^ w = k + 2 ^ w := by
      rw [← Int.add_emod_self]
      exact Int.emod_eq_of_lt (by omega) (by omega)
    have hnot : ¬ (k + 2 ^ w < 2 ^ (w - 1)) := by omega
    rw [hm, if_neg hnot]
    omega

/-- The unsigned difference of a position advanced by `k` and the position, read as signed. -/
theorem diff_of_advance (w : Nat) (m : Nat) (k : Int) (hw : 0 < w)
    (hlo : -(2 ^ (w - 1)) ≤ k) (hhi : k < 2 ^ (w - 1)) :
    to_difference_type w
      (to_size_type w (((to_size_type w ((m : Int) + k) : Nat) : Int) - (m : Int))) = k := by
  rw [to_size_type_cast, to_size_type_cast, to_difference_type_emod, ← to_difference_type_emod,
    Int.sub_emod, Int.emod_emod, ← Int.sub_emod, add_sub_cancel_left, to_difference_type_emod]
  exact to_difference_type_of_range w k hw hlo hhi


open fs_vector_engine

/-! ## Claims about the engine -/

section engine_claims

variable {T T2 : Type} {N M : Nat}

/-- Every subscript of the engine after the same-length `assign`. -/
theorem assign_fs_elems (cast : T2 → T) (self : fs_vector_engine T N)
    (rhs : fs_vector_engine T2 N) (i : Nat) (hi : i < N) :
    (assign_fs cast self rhs).op_call i = (rhs.op_call i).map cast := by
  unfold assign_fs for_loop
  show (for_loop_steps _ (N - 0) 0 self).1.ma_elems[i]? = _
  rw [convert_steps cast rhs (N - 0) 0 self (by omega) i, if_pos (by omega)]

/-- The runtime-checked `assign` between engines of one length succeeds, and every subscript of
the engine after it. -/
theorem assign_engine_elems (cast : T2 → T) (self : fs_vector_engine T N)
    (rhs : fs_vector_engine T2 N) (i : Nat) (hi : i < N) :
    (assign_engine cast self rhs).1 = Except.ok () ∧
    (assign_engine cast self rhs).2.op_call i = (rhs.op_call i).map cast := by
  have hsame : ¬ (elements T2 N ≠ elements T N) := fun h => h rfl
  unfold assign_engine
  rw [if_neg hsame]
  refine ⟨rfl, ?_⟩
  obtain ⟨_, hcopy⟩ :=
    copy_steps cast rhs.ma_elems (N - 0) 0 0 self (by rw [rhs.size_ok]; omega)
  unfold for_loop op_call
  have hidx : 0 + (i - 0) = i := by omega
  rw [hcopy i, if_pos (by omega), hidx]

/-- C1: for an engine of length `N`, whatever it holds, and a literal list of length `L ≤ N`,
assigning the list succeeds and constructing from it succeeds; afterwards element `i` is the
converted `i`-th list value for every `i < L` and zero for every `i` with `L ≤ i < N`. -/
theorem C1_list_that_fits_is_copied_then_zero_padded [Zero T] (cast : T2 → T)
    (self : fs_vector_engine T N) (rhs : List T2) (hL : rhs.length ≤ N) :
    ((op_assign_list cast self rhs).1 = Except.ok () ∧
      (∀ (i : Nat) (h : i < rhs.length),
        (op_assign_list cast self rhs).2.op_call i = some (cast (rhs.get ⟨i, h⟩))) ∧
      (∀ i : Nat, rhs.length ≤ i → i < N →
        (op_assign_list cast self rhs).2.op_call i = some 0)) ∧
    (∃ e : fs_vector_engine T N, ctor_list cast rhs = Except.ok e ∧
      (∀ (i : Nat) (h : i < rhs.length), e.op_call i = some (cast (rhs.get ⟨i, h⟩))) ∧
      (∀ i : Nat, rhs.length ≤ i → i < N → e.op_call i = some 0)) := by
  have key : ∀ s : fs_vector_engine T N,
      (assign_list cast s rhs).1 = Except.ok () ∧
      (∀ (i : Nat) (h : i < rhs.length),
        (assign_list cast s rhs).2.op_call i = some (cast (rhs.get ⟨i, h⟩))) ∧
      (∀ i : Nat, rhs.length ≤ i → i < N → (assign_list cast s rhs).2.op_call i = some 0) := by
    intro s
    obtain ⟨hok, helems⟩ := assign_list_elems cast s rhs hL
    refine ⟨hok, fun i h => ?_, fun i h1 h2 => ?_⟩
    · rw [helems i, if_pos h, List.getElem?_eq_getElem h]
      rfl
    · rw [helems i, if_neg (by omega), if_pos h2]
  refine ⟨key self, (assign_list cast (ctor : fs_vector_engine T N) rhs).2, ?_, (key ctor).2⟩
  unfold ctor_list
  have hok := (key (ctor : fs_vector_engine T N)).1
  generalize assign_list cast (ctor : fs_vector_engine T N) rhs = r at hok ⊢
  obtain ⟨r1, r2⟩ := r
  simp only at hok
  subst hok
  rfl

/-- C1 at the engine `[7, 8, 9]` of length 3 and the list `{1, 2}`; constructing an engine of
length 3 from `{1, 2}` gives `[1, 2, 0]`. -/
theorem C1_list_that_fits_witness :
    ([1, 2] : List Nat).length ≤ 3 ∧
    (((op_assign_list Int.ofNat (⟨[7, 8, 9], rfl⟩ : fs_vector_engine Int 3) [1, 2]).1
        = Except.ok () ∧
      (∀ (i : Nat) (h : i < ([1, 2] : List Nat).length),
        (op_assign_list Int.ofNat (⟨[7, 8, 9], rfl⟩ : fs_vector_engine Int 3) [1, 2]).2.op_call i
          = some (Int.ofNat (([1, 2] : List Nat).get ⟨i, h⟩))) ∧
      (∀ i : Nat, ([1, 2] : List Nat).length ≤ i → i < 3 →
        (op_assign_list Int.ofNat (⟨[7, 8, 9], rfl⟩ : fs_vector_engine Int 3) [1, 2]).2.op_call i
          = some 0)) ∧
    (∃ e : fs_vector_engine Int 3, ctor_list Int.ofNat [1, 2] = Except.ok e ∧
      (∀ (i : Nat) (h : i < ([1, 2] : List Nat).length),
        e.op_call i = some (Int.ofNat (([1, 2] : List Nat).get ⟨i, h⟩))) ∧
      (∀ i : Nat, ([1, 2] : List Nat).length ≤ i → i < 3 → e.op_call i = some 0))) ∧
    (ctor_list Int.ofNat [1, 2] : Except exception (fs_vector_engine Int 3))
      = Except.ok ⟨[1, 2, 0], rfl⟩ :=
  ⟨by decide,
   C1_list_that_fits_is_copied_then_zero_padded Int.ofNat
     (⟨[7, 8, 9], rfl⟩ : fs_vector_engine Int 3) [1, 2] (by decide),
   rfl⟩

/-- C2: assigning a literal list of length `L` into an engine of length `N` throws
`runtime_error("invalid size")` if and only if `L > N`, and whenever the assignment does not
succeed the engine is what it was before the call. -/
theorem C2_list_too_long_throws_and_leaves_engine [Zero T] (cast : T2 → T)
    (self : fs_vector_engine T N) (rhs : List T2) :
    ((op_assign_list cast self rhs).1 = Except.error (exception.runtime_error "invalid size")
      ↔ rhs.length > N) ∧
    ((op_assign_list cast self rhs).1 ≠ Except.ok () →
      (op_assign_list cast self rhs).2 = self) := by
  unfold op_assign_list assign_list
  by_cases h : rhs.length > N
  · simp [h]
  · simp [h]

/-- C2 at the engine `[7, 8, 9]` of length 3 and the list `{1, 2, 3, 4}`: the assignment throws
and the engine is still `[7, 8, 9]`. -/
theorem C2_list_too_long_witness :
    (op_assign_list Int.ofNat (⟨[7, 8, 9], rfl⟩ : fs_vector_engine Int 3) [1, 2, 3, 4]).1
      = Except.error (exception.runtime_error "invalid size") ∧
    (op_assign_list Int.ofNat (⟨[7, 8, 9], rfl⟩ : fs_vector_engine Int 3) [1, 2, 3, 4]).2
      = ⟨[7, 8, 9], rfl⟩ :=
  have h := C2_list_too_long_throws_and_leaves_engine Int.ofNat
    (⟨[7, 8, 9], rfl⟩ : fs_vector_engine Int 3) [1, 2, 3, 4]
  have hthrown := h.1.mpr (by decide)
  ⟨hthrown, h.2 (by rw [hthrown]; exact fun hne => nomatch hne)⟩

/-- C3: assigning a source engine with `M` elements into an engine of length `N` through the
runtime-checked path throws `runtime_error("invalid size")` if and only if `M ≠ N`, and whenever
the assignment does not succeed the destination is what it was before the call. -/
theorem C3_engine_length_mismatch_throws_and_leaves_engine (cast : T2 → T)
    (A : fs_vector_engine T N) (B : fs_vector_engine T2 M) :
    ((op_assign_engine cast A B).1 = Except.error (exception.runtime_error "invalid size")
      ↔ M ≠ N) ∧
    ((op_assign_engine cast A B).1 ≠ Except.ok () → (op_assign_engine cast A B).2 = A) := by
  unfold op_assign_engine assign_engine elements
  by_cases h : M = N
  · simp [h]
  · simp [h]

/-- C3 at a destination `[7, 8, 9, 10]` of length 4 and a source `[1, 2, 3]` of length 3: the
assignment throws and the destination is still `[7, 8, 9, 10]`. -/
theorem C3_engine_length_mismatch_witness :
    (op_assign_engine Int.ofNat (⟨[7, 8, 9, 10], rfl⟩ : fs_vector_engine Int 4)
        (⟨[1, 2, 3], rfl⟩ : fs_vector_engine Nat 3)).1
      = Except.error (exception.runtime_error "invalid size") ∧
    (op_assign_engine Int.ofNat (⟨[7, 8, 9, 10], rfl⟩ : fs_vector_engine Int 4)
        (⟨[1, 2, 3], rfl⟩ : fs_vector_engine Nat 3)).2
      = ⟨[7, 8, 9, 10], rfl⟩ :=
  have h := C3_engine_length_mismatch_throws_and_leaves_engine Int.ofNat
    (⟨[7, 8, 9, 10], rfl⟩ : fs_vector_engine Int 4) (⟨[1, 2, 3], rfl⟩ : fs_vector_engine Nat 3)
  have hthrown := h.1.mpr (by decide)
  ⟨hthrown, h.2 (by rw [hthrown]; exact fun hne => nomatch hne)⟩

/-- C4: for engines `A` and `B` of one length `N`, assigning `B` into `A` succeeds on both the
compile-time-checked and the runtime-checked path, and afterwards `A(i)` is the conversion of
`B(i)` for every `i < N` (`B(i)` being an element of `B`); with one element type on both sides,
where the conversion copies the value, `A(i)` reads the same as `B(i)`.  The source is taken by
`const&`: the assignment reads `B` and has no way to write it. -/
theorem C4_equal_length_assign_converts_every_element (cast : T2 → T)
    (A : fs_vector_engine T N) (B : fs_vector_engine T2 N) (B0 : fs_vector_engine T N)
    (i : Nat) (hi : i < N) :
    (∃ b : T2, B.op_call i = some b ∧
      (op_assign_fs cast A B).op_call i = some (cast b) ∧
      (op_assign_engine cast A B).1 = Except.ok () ∧
      (op_assign_engine cast A B).2.op_call i = some (cast b)) ∧
    ((op_assign_fs (fun x : T => x) A B0).op_call i = B0.op_call i ∧
      (op_assign_engine (fun x : T => x) A B0).1 = Except.ok () ∧
      (op_assign_engine (fun x : T => x) A B0).2.op_call i = B0.op_call i) := by
  have hB : ∀ {S : Type} (E : fs_vector_engine S N), E.op_call i = some (E.ma_elems.get ⟨i, by
      rw [E.size_ok]; exact hi⟩) := by
    intro S E
    exact List.getElem?_eq_getElem (by rw [E.size_ok]; exact hi)
  refine ⟨⟨_, hB B, ?_, ?_, ?_⟩, ?_, ?_, ?_⟩
  · rw [op_assign_fs, assign_fs_elems cast A B i hi, hB B]; rfl
  · exact (assign_engine_elems cast A B i hi).1
  · rw [op_assign_engine, (assign_engine_elems cast A B i hi).2, hB B]; rfl
  · rw [op_assign_fs, assign_fs_elems _ A B0 i hi, hB B0]; rfl
  · exact (assign_engine_elems _ A B0 i hi).1
  · rw [op_assign_engine, (assign_engine_elems _ A B0 i hi).2, hB B0]; rfl

/-- C4 at `A = [7, 8, 9]`, `B = [1, 2, 3]` (converted from `Nat` to `Int`), `B0 = [4, 5, 6]` and
`i = 2`. -/
theorem C4_equal_length_assign_witness :
    2 < 3 ∧
    ((∃ b : Nat, (⟨[1, 2, 3], rfl⟩ : fs_vector_engine Nat 3).op_call 2 = some b ∧
      (op_assign_fs Int.ofNat (⟨[7, 8, 9], rfl⟩ : fs_vector_engine Int 3)
        (⟨[1, 2, 3], rfl⟩ : fs_vector_engine Nat 3)).op_call 2 = some (Int.ofNat b) ∧
      (op_assign_engine Int.ofNat (⟨[7, 8, 9], rfl⟩ : fs_vector_engine Int 3)
        (⟨[1, 2, 3], rfl⟩ : fs_vector_engine Nat 3)).1 = Except.ok () ∧
      (op_assign_engine Int.ofNat (⟨[7, 8, 9], rfl⟩ : fs_vector_engine Int 3)
        (⟨[1, 2, 3], rfl⟩ : fs_vector_engine Nat 3)).2.op_call 2 = some (Int.ofNat b)) ∧
    ((op_assign_fs (fun x : Int => x) (⟨[7, 8, 9], rfl⟩ : fs_vector_engine Int 3)
        (⟨[4, 5, 6], rfl⟩ : fs_vector_engine Int 3)).op_call 2
        = (⟨[4, 5, 6], rfl⟩ : fs_vector_engine Int 3).op_call 2 ∧
      (op_assign_engine (fun x : Int => x) (⟨[7, 8, 9], rfl⟩ : fs_vector_engine Int 3)
        (⟨[4, 5, 6], rfl⟩ : fs_vector_engine Int 3)).1 = Except.ok () ∧
      (op_assign_engine (fun x : Int => x) (⟨[7, 8, 9], rfl⟩ : fs_vector_engine Int 3)
        (⟨[4, 5, 6], rfl⟩ : fs_vector_engine Int 3)).2.op_call 2
        = (⟨[4, 5, 6], rfl⟩ : fs_vector_engine Int 3).op_call 2)) ∧
    (op_assign_fs Int.ofNat (⟨[7, 8, 9], rfl⟩ : fs_vector_engine Int 3)
        (⟨[1, 2, 3], rfl⟩ : fs_vector_engine Nat 3)) = ⟨[1, 2, 3], rfl⟩ :=
  ⟨by decide,
   C4_equal_length_assign_converts_every_element Int.ofNat
     (⟨[7, 8, 9], rfl⟩ : fs_vector_engine Int 3) (⟨[1, 2, 3], rfl⟩ : fs_vector_engine Nat 3)
     (⟨[4, 5, 6], rfl⟩ : fs_vector_engine Int 3) 2 (by decide),
   rfl⟩

/-- C5: for every `N ≥ 1`, `capacity()` and `elements()` are both `N`, and every element `i < N`
of a default-constructed engine is the zero of the element type. -/
theorem C5_default_constructed_engine_is_zero (T : Type) [Zero T] (N : Nat) (_hN : 1 ≤ N)
    (i : Nat) (hi : i < N) :
    capacity T N = N ∧ elements T N = N ∧ capacity T N = elements T N ∧
    (ctor : fs_vector_engine T N).op_call i = some 0 := by
  refine ⟨rfl, rfl, rfl, ?_⟩
  show (List.replicate N (0 : T))[i]? = some 0
  rw [List.getElem?_replicate, if_pos hi]

/-- C5 at `N = 3`, element type `Int`, `i = 2`; the engine is `[0, 0, 0]`. -/
theorem C5_default_constructed_engine_witness :
    1 ≤ 3 ∧ 2 < 3 ∧
    (capacity Int 3 = 3 ∧ elements Int 3 = 3 ∧ capacity Int 3 = elements Int 3 ∧
      (ctor : fs_vector_engine Int 3).op_call 2 = some 0) ∧
    (ctor : fs_vector_engine Int 3) = ⟨[0, 0, 0], rfl⟩ :=
  ⟨by decide, by decide, C5_default_constructed_engine_is_zero Int 3 (by decide) 2 (by decide),
   rfl⟩

end engine_claims


open detail

/-! ## Claims about the iterators -/

section iterator_claims

variable {T : Type} {N : Nat}

/-- Comparisons of two mutable iterators that point to different engines: `==`, `<` and `>` are
false, and `!=`, `<=` and `>=`, each the negation of a helper that is false, are true. -/
theorem vector_iterator_cross_engine (a b : vector_iterator T N)
    (h : a.mp_engine ≠ b.mp_engine) :
    vector_iterator.op_eq a b = false ∧ vector_iterator.op_lt a b = false ∧
    vector_iterator.op_gt a b = false ∧ vector_iterator.op_ne a b = true ∧
    vector_iterator.op_le a b = true ∧ vector_iterator.op_ge a b = true := by
  simp [vector_iterator.op_eq, vector_iterator.op_lt, vector_iterator.op_gt,
    vector_iterator.op_ne, vector_iterator.op_le, vector_iterator.op_ge,
    vector_iterator.equals, vector_iterator.less_than, vector_iterator.greater_than, h]

/-- Comparisons of two const iterators that point to different engines: `==`, `<` and `>` are
false, and `!=`, `<=` and `>=`, each the negation of a helper that is false, are true. -/
theorem vector_const_iterator_cross_engine (a b : vector_const_iterator T N)
    (h : a.mp_engine ≠ b.mp_engine) :
    vector_const_iterator.op_eq a b = false ∧ vector_const_iterator.op_lt a b = false ∧
    vector_const_iterator.op_gt a b = false ∧ vector_const_iterator.op_ne a b = true ∧
    vector_const_iterator.op_le a b = true ∧ vector_const_iterator.op_ge a b = true := by
  simp [vector_const_iterator.op_eq, vector_const_iterator.op_lt, vector_const_iterator.op_gt,
    vector_const_iterator.op_ne, vector_const_iterator.op_le, vector_const_iterator.op_ge,
    vector_const_iterator.equals, vector_const_iterator.less_than,
    vector_const_iterator.greater_than, h]

/-- C6, on the code: for the iterators at position 0 of the engines at addresses 1 and 2, and
for the iterators at positions 2 and 0 of those engines, `==`, `<` and `>` are false but `<=`
and `>=` both hold, for the mutable and for the const iterator. -/
theorem C6_cross_engine_le_and_ge_hold :
    ((1 : Nat) ≠ 2) ∧
    (vector_iterator.op_eq (⟨1, 0, 3⟩ : vector_iterator Int 3) ⟨2, 0, 3⟩ = false ∧
      vector_iterator.op_lt (⟨1, 0, 3⟩ : vector_iterator Int 3) ⟨2, 0, 3⟩ = false ∧
      vector_iterator.op_gt (⟨1, 0, 3⟩ : vector_iterator Int 3) ⟨2, 0, 3⟩ = false ∧
      vector_iterator.op_le (⟨1, 0, 3⟩ : vector_iterator Int 3) ⟨2, 0, 3⟩ = true ∧
      vector_iterator.op_ge (⟨1, 0, 3⟩ : vector_iterator Int 3) ⟨2, 0, 3⟩ = true) ∧
    (vector_iterator.op_le (⟨1, 2, 3⟩ : vector_iterator Int 3) ⟨2, 0, 3⟩ = true ∧
      vector_iterator.op_ge (⟨1, 2, 3⟩ : vector_iterator Int 3) ⟨2, 0, 3⟩ = true) ∧
    (vector_const_iterator.op_eq (⟨1, 0, 3⟩ : vector_const_iterator Int 3) ⟨2, 0, 3⟩ = false ∧
      vector_const_iterator.op_lt (⟨1, 0, 3⟩ : vector_const_iterator Int 3) ⟨2, 0, 3⟩ = false ∧
      vector_const_iterator.op_gt (⟨1, 0, 3⟩ : vector_const_iterator Int 3) ⟨2, 0, 3⟩ = false ∧
      vector_const_iterator.op_le (⟨1, 0, 3⟩ : vector_const_iterator Int 3) ⟨2, 0, 3⟩ = true ∧
      vector_const_iterator.op_ge (⟨1, 0, 3⟩ : vector_const_iterator Int 3) ⟨2, 0, 3⟩ = true) ∧
    (vector_const_iterator.op_le (⟨1, 2, 3⟩ : vector_const_iterator Int 3) ⟨2, 0, 3⟩ = true ∧
      vector_const_iterator.op_ge (⟨1, 2, 3⟩ : vector_const_iterator Int 3) ⟨2, 0, 3⟩ = true) := by
  decide

/-- C7: for two iterators of one kind, `a == b` holds if and only if they point to the same
engine and have the same current position, and `a != b` is the negation of `a == b`. -/
theorem C7_equality_is_same_engine_and_position (a b : vector_iterator T N)
    (ca cb : vector_const_iterator T N) :
    ((vector_iterator.op_eq a b = true ↔ a.mp_engine = b.mp_engine ∧ a.m_curr = b.m_curr) ∧
      vector_iterator.op_ne a b = !vector_iterator.op_eq a b) ∧
    ((vector_const_iterator.op_eq ca cb = true
        ↔ ca.mp_engine = cb.mp_engine ∧ ca.m_curr = cb.m_curr) ∧
      vector_const_iterator.op_ne ca cb = !vector_const_iterator.op_eq ca cb) := by
  simp [vector_iterator.op_eq, vector_iterator.op_ne, vector_iterator.equals,
    vector_const_iterator.op_eq, vector_const_iterator.op_ne, vector_const_iterator.equals]

/-- C8: for two iterators of one kind, `a < b` holds if and only if they point to the same
engine and the position of `a` is below that of `b`, and `a > b` holds if and only if they point
to the same engine and the position of `a` is above that of `b`. -/
theorem C8_strict_order_is_same_engine_and_position_order (a b : vector_iterator T N)
    (ca cb : vector_const_iterator T N) :
    ((vector_iterator.op_lt a b = true ↔ a.mp_engine = b.mp_engine ∧ a.m_curr < b.m_curr) ∧
      (vector_iterator.op_gt a b = true ↔ a.mp_engine = b.mp_engine ∧ a.m_curr > b.m_curr)) ∧
    ((vector_const_iterator.op_lt ca cb = true
        ↔ ca.mp_engine = cb.mp_engine ∧ ca.m_curr < cb.m_curr) ∧
      (vector_const_iterator.op_gt ca cb = true
        ↔ ca.mp_engine = cb.mp_engine ∧ ca.m_curr > cb.m_curr)) := by
  simp [vector_iterator.op_lt, vector_iterator.op_gt, vector_iterator.less_than,
    vector_iterator.greater_than, vector_const_iterator.op_lt, vector_const_iterator.op_gt,
    vector_const_iterator.less_than, vector_const_iterator.greater_than]

/-- Reading through a pointer to a live engine is subscripting that engine. -/
theorem engine_at_live (store : engine_store (fs_vector_engine T N)) (p : Nat)
    (E : fs_vector_engine T N) (hp : p ≠ nullptr) (hE : store p = some E) (i : Nat) :
    engine_at store p i = E.op_call i := by
  unfold engine_at
  rw [if_neg hp, hE]

/-- C9: for an iterator over a live engine `E` of length `N`, at position `p`, and an offset `k`
with `p + k < N`: `*it` is `E(p)`, `it[k]` is `E(p + k)`, and `it + k` is at position `p + k` and
dereferences to `E(p + k)`; `E(p)` and `E(p + k)` are elements of `E`.  The iterator is given by
its members: the address `a` of `E`, the position `p` and the upper bound. -/
theorem C9_dereference_index_and_advance (w : Nat) (store : engine_store (fs_vector_engine T N))
    (E : fs_vector_engine T N) (a p upper k : Nat) (hN : N < 2 ^ w) (ha : a ≠ nullptr)
    (hE : store a = some E) (hk : p + k < N) :
    ((E.op_call p).isSome = true ∧ (E.op_call (p + k)).isSome = true) ∧
    (vector_iterator.op_deref store (⟨a, p, upper⟩ : vector_iterator T N) = E.op_call p ∧
      vector_iterator.op_index w store (⟨a, p, upper⟩ : vector_iterator T N) k
        = E.op_call (p + k) ∧
      (vector_iterator.op_add w (⟨a, p, upper⟩ : vector_iterator T N) (k : Int)).m_curr
        = p + k ∧
      vector_iterator.op_deref store
          (vector_iterator.op_add w (⟨a, p, upper⟩ : vector_iterator T N) (k : Int))
        = E.op_call (p + k)) ∧
    (vector_const_iterator.op_deref store (⟨a, p, upper⟩ : vector_const_iterator T N)
        = E.op_call p ∧
      vector_const_iterator.op_index w store (⟨a, p, upper⟩ : vector_const_iterator T N) k
        = E.op_call (p + k) ∧
      (vector_const_iterator.op_add w (⟨a, p, upper⟩ : vector_const_iterator T N)
          (k : Int)).m_curr = p + k ∧
      vector_const_iterator.op_deref store
          (vector_const_iterator.op_add w (⟨a, p, upper⟩ : vector_const_iterator T N) (k : Int))
        = E.op_call (p + k)) := by
  have hpos : to_size_type w ((p : Int) + (k : Int)) = p + k := by
    have h := to_size_type_of_lt w (p + k) (by omega)
    push_cast at h
    exact h
  have hsome : ∀ i, i < N → (E.op_call i).isSome = true := by
    intro i hi
    unfold fs_vector_engine.op_call
    rw [List.getElem?_eq_getElem (by rw [E.size_ok]; exact hi)]
    rfl
  refine ⟨⟨hsome p (by omega), hsome (p + k) hk⟩, ⟨?_, ?_, ?_, ?_⟩, ⟨?_, ?_, ?_, ?_⟩⟩
  · exact engine_at_live store a E ha hE p
  · show engine_at store a (to_size_type w ((p : Int) + (k : Int))) = _
    rw [hpos]
    exact engine_at_live store a E ha hE (p + k)
  · exact hpos
  · show engine_at store a (to_size_type w ((p : Int) + (k : Int))) = _
    rw [hpos]
    exact engine_at_live store a E ha hE (p + k)
  · exact engine_at_live store a E ha hE p
  · show engine_at store a (to_size_type w ((p : Int) + (k : Int))) = _
    rw [hpos]
    exact engine_at_live store a E ha hE (p + k)
  · exact hpos
  · show engine_at store a (to_size_type w ((p : Int) + (k : Int))) = _
    rw [hpos]
    exact engine_at_live store a E ha hE (p + k)

/-- C10: for every iterator `it` and every signed offset `k` in the range of the signed
difference type of `w` bits, `(it + k) - it` is `k`, the position being an unsigned word of `w`
bits and the difference being read as signed. -/
theorem C10_advance_then_difference_is_offset (w : Nat) (it : vector_iterator T N)
    (cit : vector_const_iterator T N) (k : Int) (hw : 0 < w)
    (hlo : -(2 ^ (w - 1)) ≤ k) (hhi : k < 2 ^ (w - 1)) :
    vector_iterator.op_diff w (vector_iterator.op_add w it k) it = k ∧
    vector_const_iterator.op_diff w (vector_const_iterator.op_add w cit k) cit = k :=
  ⟨diff_of_advance w it.m_curr k hw hlo hhi, diff_of_advance w cit.m_curr k hw hlo hhi⟩

end iterator_claims

/-- C9 with words of 64 bits, at the engine `[10, 20, 30]` living at address 1, position 1 and
offset 1: `*it` is 20, and `it[1]` and `*(it + 1)` are 30. -/
theorem C9_dereference_index_and_advance_witness :
    (3 < 2 ^ 64 ∧ (1 : Nat) ≠ nullptr ∧
      example_store 1 = some (⟨[10, 20, 30], rfl⟩ : fs_vector_engine Int 3) ∧ 1 + 1 < 3) ∧
    (((⟨[10, 20, 30], rfl⟩ : fs_vector_engine Int 3).op_call 1).isSome = true ∧
      ((⟨[10, 20, 30], rfl⟩ : fs_vector_engine Int 3).op_call (1 + 1)).isSome = true) ∧
    (vector_iterator.op_deref example_store (⟨1, 1, 3⟩ : vector_iterator Int 3)
        = (⟨[10, 20, 30], rfl⟩ : fs_vector_engine Int 3).op_call 1 ∧
      vector_iterator.op_index 64 example_store (⟨1, 1, 3⟩ : vector_iterator Int 3) 1
        = (⟨[10, 20, 30], rfl⟩ : fs_vector_engine Int 3).op_call (1 + 1) ∧
      (vector_iterator.op_add 64 (⟨1, 1, 3⟩ : vector_iterator Int 3) ((1 : Nat) : Int)).m_curr
        = 1 + 1 ∧
      vector_iterator.op_deref example_store
          (vector_iterator.op_add 64 (⟨1, 1, 3⟩ : vector_iterator Int 3) ((1 : Nat) : Int))
        = (⟨[10, 20, 30], rfl⟩ : fs_vector_engine Int 3).op_call (1 + 1)) ∧
    (vector_const_iterator.op_deref example_store (⟨1, 1, 3⟩ : vector_const_iterator Int 3)
        = (⟨[10, 20, 30], rfl⟩ : fs_vector_engine Int 3).op_call 1 ∧
      vector_const_iterator.op_index 64 example_store (⟨1, 1, 3⟩ : vector_const_iterator Int 3) 1
        = (⟨[10, 20, 30], rfl⟩ : fs_vector_engine Int 3).op_call (1 + 1) ∧
      (vector_const_iterator.op_add 64 (⟨1, 1, 3⟩ : vector_const_iterator Int 3)
          ((1 : Nat) : Int)).m_curr = 1 + 1 ∧
      vector_const_iterator.op_deref example_store
          (vector_const_iterator.op_add 64 (⟨1, 1, 3⟩ : vector_const_iterator Int 3)
            ((1 : Nat) : Int))
        = (⟨[10, 20, 30], rfl⟩ : fs_vector_engine Int 3).op_call (1 + 1)) :=
  ⟨⟨by decide, by decide, rfl, by decide⟩,
   C9_dereference_index_and_advance 64 example_store ⟨[10, 20, 30], rfl⟩ 1 1 3 1
     (by decide) (by decide) rfl (by decide)⟩

/-- C10 with words of 64 bits, at position 0 and offset -1: the position wraps to `2 ^ 64 - 1`
and the difference is -1. -/
theorem C10_advance_then_difference_witness :
    (0 < 64 ∧ -(2 ^ (64 - 1)) ≤ (-1 : Int) ∧ (-1 : Int) < 2 ^ (64 - 1)) ∧
    (vector_iterator.op_diff 64
        (vector_iterator.op_add 64 (⟨1, 0, 3⟩ : vector_iterator Int 3) (-1)) ⟨1, 0, 3⟩ = -1 ∧
      vector_const_iterator.op_diff 64
        (vector_const_iterator.op_add 64 (⟨1, 0, 3⟩ : vector_const_iterator Int 3) (-1))
        ⟨1, 0, 3⟩ = -1) ∧
    (vector_iterator.op_add 64 (⟨1, 0, 3⟩ : vector_iterator Int 3) (-1)).m_curr = 2 ^ 64 - 1 :=
  ⟨⟨by decide, by decide, by decide⟩,
   C10_advance_then_difference_is_offset 64 ⟨1, 0, 3⟩ ⟨1, 0, 3⟩ (-1)
     (by decide) (by decide) (by decide),
   by decide⟩

/-! ## Claims about the iterators: stepping and conversion -/

section stepping_claims

variable {T : Type} {N : Nat}

/-- What the postfix operators of the mutable iterator do: they return the iterator one step
away and leave the receiver as it is. -/
theorem vector_iterator_postfix (w : Nat) (it : vector_iterator T N) :
    vector_iterator.op_post_inc w it = (vector_iterator.op_add w it 1, it) ∧
    vector_iterator.op_post_dec w it = (vector_iterator.op_sub w it 1, it) :=
  ⟨rfl, rfl⟩

/-- What the postfix operators of the const iterator do: they return the iterator one step away
and leave the receiver as it is. -/
theorem vector_const_iterator_postfix (w : Nat) (it : vector_const_iterator T N) :
    vector_const_iterator.op_post_inc w it = (vector_const_iterator.op_add w it 1, it) ∧
    vector_const_iterator.op_post_dec w it = (vector_const_iterator.op_sub w it 1, it) :=
  ⟨rfl, rfl⟩

/-- C11, on the code: for an iterator at position 1 with bound 3 over the engine at address 1
(words of 64 bits), `it++` returns an iterator at position 2 and leaves the receiver at position
1, and `it--` returns an iterator at position 0 and leaves the receiver at position 1, for the
mutable and for the const iterator; the prefix operators do move the receiver. -/
theorem C11_postfix_returns_the_stepped_iterator :
    (vector_iterator.op_post_inc 64 (⟨1, 1, 3⟩ : vector_iterator Int 3)
        = (⟨1, 2, 3⟩, ⟨1, 1, 3⟩) ∧
      vector_iterator.op_post_dec 64 (⟨1, 1, 3⟩ : vector_iterator Int 3)
        = (⟨1, 0, 3⟩, ⟨1, 1, 3⟩)) ∧
    (vector_const_iterator.op_post_inc 64 (⟨1, 1, 3⟩ : vector_const_iterator Int 3)
        = (⟨1, 2, 3⟩, ⟨1, 1, 3⟩) ∧
      vector_const_iterator.op_post_dec 64 (⟨1, 1, 3⟩ : vector_const_iterator Int 3)
        = (⟨1, 0, 3⟩, ⟨1, 1, 3⟩)) ∧
    (vector_iterator.op_pre_inc 64 (⟨1, 1, 3⟩ : vector_iterator Int 3) = ⟨1, 2, 3⟩ ∧
      vector_iterator.op_pre_dec 64 (⟨1, 1, 3⟩ : vector_iterator Int 3) = ⟨1, 0, 3⟩) := by
  decide

/-- C12: the const iterator constructed from a mutable iterator has the same engine pointer, the
same position and the same upper bound, and dereferencing it gives what dereferencing the mutable
iterator gives; over a live engine `E` of length `N`, at a position below `N`, both give the
element of `E` at that position. -/
theorem C12_const_iterator_from_mutable (it : vector_iterator T N) :
    ((vector_const_iterator.ctor_iterator it).mp_engine = it.mp_engine ∧
      (vector_const_iterator.ctor_iterator it).m_curr = it.m_curr ∧
      (vector_const_iterator.ctor_iterator it).m_upper = it.m_upper) ∧
    (∀ store : engine_store (fs_vector_engine T N),
      vector_const_iterator.op_deref store (vector_const_iterator.ctor_iterator it)
        = vector_iterator.op_deref store it) ∧
    (∀ (store : engine_store (fs_vector_engine T N)) (E : fs_vector_engine T N),
      it.mp_engine ≠ nullptr → store it.mp_engine = some E → ∀ h : it.m_curr < N,
        vector_iterator.op_deref store it
          = some (E.ma_elems.get ⟨it.m_curr, by rw [E.size_ok]; exact h⟩) ∧
        vector_const_iterator.op_deref store (vector_const_iterator.ctor_iterator it)
          = some (E.ma_elems.get ⟨it.m_curr, by rw [E.size_ok]; exact h⟩)) := by
  refine ⟨⟨rfl, rfl, rfl⟩, fun _ => rfl, fun store E ha hE h => ?_⟩
  have hread : vector_iterator.op_deref store it
      = some (E.ma_elems.get ⟨it.m_curr, by rw [E.size_ok]; exact h⟩) := by
    show engine_at store it.mp_engine it.m_curr = _
    rw [engine_at_live store it.mp_engine E ha hE it.m_curr]
    exact List.getElem?_eq_getElem (by rw [E.size_ok]; exact h)
  exact ⟨hread, hread⟩

/-- C12 at the mutable iterator at position 1 of the engine `[10, 20, 30]` living at address 1:
the const iterator is at position 1 of the same engine and both dereference to 20. -/
theorem C12_const_iterator_from_mutable_witness :
    vector_const_iterator.ctor_iterator (⟨1, 1, 3⟩ : vector_iterator Int 3) = ⟨1, 1, 3⟩ ∧
    vector_iterator.op_deref example_store (⟨1, 1, 3⟩ : vector_iterator Int 3) = some 20 ∧
    vector_const_iterator.op_deref example_store
      (vector_const_iterator.ctor_iterator (⟨1, 1, 3⟩ : vector_iterator Int 3)) = some 20 :=
  ⟨rfl,
   ((C12_const_iterator_from_mutable (⟨1, 1, 3⟩ : vector_iterator Int 3)).2.2 example_store
      ⟨[10, 20, 30], rfl⟩ (by decide) rfl (by decide)).1,
   ((C12_const_iterator_from_mutable (⟨1, 1, 3⟩ : vector_iterator Int 3)).2.2 example_store
      ⟨[10, 20, 30], rfl⟩ (by decide) rfl (by decide)).2⟩

end stepping_claims

/-! ## Claims about the modifiers of the engine -/

section modifier_claims

variable {T : Type} {N : Nat}

/-- Two engines with the same elements are the same engine. -/
theorem fs_vector_engine_eq_of_elems (a b : fs_vector_engine T N)
    (h : a.ma_elems = b.ma_elems) : a = b := by
  cases a
  cases b
  simp only [fs_vector_engine.mk.injEq]
  exact h

/-- What the store `ma_elems[di] = v` leaves at subscript `i`. -/
theorem getElem?_set_elem (e : fs_vector_engine T N) (di i : Nat) (v : T) :
    (e.set_elem di v).ma_elems[i]? = if di = i ∧ i < N then some v else e.ma_elems[i]? :=
  fs_vector_engine.getElem?_store_cast (fun x : T => x) e di i v

/-- A read inside the engine gives the element. -/
theorem getElem?_of_lt (e : fs_vector_engine T N) (i : Nat) (hi : i < N) :
    e.ma_elems[i]? = some (e.ma_elems.get ⟨i, by rw [e.size_ok]; exact hi⟩) :=
  List.getElem?_eq_getElem (by rw [e.size_ok]; exact hi)

/-- One iteration of the loop of `swap` at a subscript inside the engines. -/
theorem swap_body_of_lt (a b : fs_vector_engine T N) (i : Nat) (hi : i < N) :
    swap_body i (a, b) =
      (a.set_elem i (b.ma_elems.get ⟨i, by rw [b.size_ok]; exact hi⟩),
       b.set_elem i (a.ma_elems.get ⟨i, by rw [a.size_ok]; exact hi⟩)) := by
  simp only [swap_body, getElem?_of_lt a i hi, getElem?_of_lt b i hi, detail.la_swap]

/-- The loop of `swap` run for `k` iterations from `di`. -/
theorem swap_steps :
    ∀ (k di : Nat) (a b : fs_vector_engine T N), di + k ≤ N →
      ∀ i,
        (for_loop_steps swap_body k di (a, b)).1.1.ma_elems[i]? =
          (if di ≤ i ∧ i < di + k then b.ma_elems[i]? else a.ma_elems[i]?) ∧
        (for_loop_steps swap_body k di (a, b)).1.2.ma_elems[i]? =
          (if di ≤ i ∧ i < di + k then a.ma_elems[i]? else b.ma_elems[i]?) := by
  intro k
  induction k with
  | zero =>
    intro di a b _ i
    have : ¬ (di ≤ i ∧ i < di + 0) := by omega
    simp only [for_loop_steps, if_neg this, and_self]
  | succ k ih =>
    intro di a b hk i
    have hdi : di < N := by omega
    have h2 := ih (di + 1)
      (a.set_elem di (b.ma_elems.get ⟨di, by rw [b.size_ok]; exact hdi⟩))
      (b.set_elem di (a.ma_elems.get ⟨di, by rw [a.size_ok]; exact hdi⟩))
      (by omega : di + 1 + k ≤ N) i
    simp only [for_loop_steps, swap_body_of_lt a b di hdi]
    rw [h2.1, h2.2]
    by_cases hi : di = i
    · subst hi
      have c1 : ¬ (di + 1 ≤ di ∧ di < di + 1 + k) := by omega
      have c2 : di ≤ di ∧ di < di + (k + 1) := by omega
      have c3 : di = di ∧ di < N := ⟨rfl, hdi⟩
      constructor
      · rw [if_neg c1, if_pos c2, getElem?_set_elem, if_pos c3, getElem?_of_lt b di hdi]
      · rw [if_neg c1, if_pos c2, getElem?_set_elem, if_pos c3, getElem?_of_lt a di hdi]
    · have c3 : ¬ (di = i ∧ i < N) := by omega
      by_cases hc : di + 1 ≤ i ∧ i < di + 1 + k
      · have c2 : di ≤ i ∧ i < di + (k + 1) := by omega
        constructor
        · rw [if_pos hc, if_pos c2, getElem?_set_elem, if_neg c3]
        · rw [if_pos hc, if_pos c2, getElem?_set_elem, if_neg c3]
      · have c2 : ¬ (di ≤ i ∧ i < di + (k + 1)) := by omega
        constructor
        · rw [if_neg hc, if_neg c2, getElem?_set_elem, if_neg c3]
        · rw [if_neg hc, if_neg c2, getElem?_set_elem, if_neg c3]

/-- The whole loop of `swap` on two different engines leaves each with the elements of the
other. -/
theorem swap_loop_exchanges (a b : fs_vector_engine T N) :
    (for_loop N swap_body 0 (a, b)).1 = (b, a) := by
  have hsteps := swap_steps (N - 0) 0 a b (by omega)
  have hlen : ∀ e : fs_vector_engine T N, ∀ i, N ≤ i → e.ma_elems[i]? = none := by
    intro e i hi
    rw [List.getElem?_eq_none_iff, e.size_ok]
    exact hi
  have h1 : (for_loop N swap_body 0 (a, b)).1.1 = b := by
    apply fs_vector_engine_eq_of_elems
    apply List.ext_getElem?
    intro i
    unfold for_loop
    rw [(hsteps i).1]
    by_cases hi : i < N
    · rw [if_pos (by omega)]
    · rw [if_neg (by omega), hlen a i (by omega), hlen b i (by omega)]
  have h2 : (for_loop N swap_body 0 (a, b)).1.2 = a := by
    apply fs_vector_engine_eq_of_elems
    apply List.ext_getElem?
    intro i
    unfold for_loop
    rw [(hsteps i).2]
    by_cases hi : i < N
    · rw [if_pos (by omega)]
    · rw [if_neg (by omega), hlen a i (by omega), hlen b i (by omega)]
  exact Prod.ext h1 h2

/-- The memory after `swap` on two different live engines. -/
theorem swap_of_ne (store : engine_store (fs_vector_engine T N)) (a b : Nat)
    (A B : fs_vector_engine T N) (hab : a ≠ b) (hA : store a = some A) (hB : store b = some B) :
    fs_vector_engine.swap store a b =
      fun p => if p = a then some B else if p = b then some A else store p := by
  have hne : b ≠ a := fun h => hab h.symm
  unfold fs_vector_engine.swap
  rw [if_pos hne]
  simp only [hA, hB, swap_loop_exchanges]

/-- C13: for engines `A` and `B` of one type, living at the addresses `a` and `b` (which may be
the same address), `swap(A, B)` followed by `swap(A, B)` leaves the memory, and so the contents
of both engines, as it was. -/
theorem C13_swap_twice_restores (store : engine_store (fs_vector_engine T N)) (a b : Nat)
    (A B : fs_vector_engine T N) (hA : store a = some A) (hB : store b = some B) :
    fs_vector_engine.swap (fs_vector_engine.swap store a b) a b = store ∧
    fs_vector_engine.swap (fs_vector_engine.swap store a b) a b a = some A ∧
    fs_vector_engine.swap (fs_vector_engine.swap store a b) a b b = some B := by
  have key : fs_vector_engine.swap (fs_vector_engine.swap store a b) a b = store := by
    by_cases hab : a = b
    · subst hab
      have hself : fs_vector_engine.swap store a a = store := by
        unfold fs_vector_engine.swap
        rw [if_neg (fun h => h rfl)]
      rw [hself, hself]
    · have hba : b ≠ a := fun h => hab h.symm
      rw [swap_of_ne store a b A B hab hA hB]
      rw [swap_of_ne _ a b B A hab (by simp) (by simp [hba])]
      funext p
      by_cases hpa : p = a
      · rw [if_pos hpa, hpa, hA]
      · rw [if_neg hpa]
        by_cases hpb : p = b
        · rw [if_pos hpb, hpb, hB]
        · rw [if_neg hpb, if_neg hpa, if_neg hpb]
  rw [key]
  exact ⟨rfl, hA, hB⟩

/-- C13 at the engines `[10, 20, 30]` at address 1 and `[1, 2, 3]` at address 2: after the two
swaps the first is `[10, 20, 30]` and the second `[1, 2, 3]` again. -/
theorem C13_swap_twice_restores_witness :
    (two_engine_store 1 = some ⟨[10, 20, 30], rfl⟩ ∧ two_engine_store 2 = some ⟨[1, 2, 3], rfl⟩) ∧
    (fs_vector_engine.swap (fs_vector_engine.swap two_engine_store 1 2) 1 2 = two_engine_store ∧
      fs_vector_engine.swap (fs_vector_engine.swap two_engine_store 1 2) 1 2 1
        = some ⟨[10, 20, 30], rfl⟩ ∧
      fs_vector_engine.swap (fs_vector_engine.swap two_engine_store 1 2) 1 2 2
        = some ⟨[1, 2, 3], rfl⟩) :=
  ⟨⟨rfl, rfl⟩, C13_swap_twice_restores two_engine_store 1 2 ⟨[10, 20, 30], rfl⟩ ⟨[1, 2, 3], rfl⟩
    rfl rfl⟩

/-- C14: for two distinct engines `A` and `B` of one type and length `N`, living at the addresses
`a ≠ b`, after `swap(A, B)` the engine at `a` holds at every `i < N` the element `B(i)` had, and
the engine at `b` holds at every `i < N` the element `A(i)` had; no other engine is touched. -/
theorem C14_swap_exchanges_every_element (store : engine_store (fs_vector_engine T N))
    (a b : Nat) (A B : fs_vector_engine T N) (hab : a ≠ b) (hA : store a = some A)
    (hB : store b = some B) (i : Nat) (hi : i < N) :
    (∃ A1 B1 : fs_vector_engine T N,
      fs_vector_engine.swap store a b a = some A1 ∧
      fs_vector_engine.swap store a b b = some B1 ∧
      A1.op_call i = some (B.ma_elems.get ⟨i, by rw [B.size_ok]; exact hi⟩) ∧
      B1.op_call i = some (A.ma_elems.get ⟨i, by rw [A.size_ok]; exact hi⟩)) ∧
    (∀ p : Nat, p ≠ a → p ≠ b → fs_vector_engine.swap store a b p = store p) := by
  have hba : b ≠ a := fun h => hab h.symm
  rw [swap_of_ne store a b A B hab hA hB]
  refine ⟨⟨B, A, by simp, by simp [hba], getElem?_of_lt B i hi, getElem?_of_lt A i hi⟩, ?_⟩
  intro p hpa hpb
  simp [hpa, hpb]

/-- C14 at the engines `[10, 20, 30]` at address 1 and `[1, 2, 3]` at address 2, `i = 2`: after
the swap the first reads 3 and the second 30 there, and the engines are `[1, 2, 3]` and
`[10, 20, 30]`. -/
theorem C14_swap_exchanges_every_element_witness :
    ((1 : Nat) ≠ 2 ∧ two_engine_store 1 = some ⟨[10, 20, 30], rfl⟩ ∧
      two_engine_store 2 = some ⟨[1, 2, 3], rfl⟩ ∧ 2 < 3) ∧
    ((∃ A1 B1 : fs_vector_engine Int 3,
      fs_vector_engine.swap two_engine_store 1 2 1 = some A1 ∧
      fs_vector_engine.swap two_engine_store 1 2 2 = some B1 ∧
      A1.op_call 2 = some (([1, 2, 3] : List Int).get ⟨2, by decide⟩) ∧
      B1.op_call 2 = some (([10, 20, 30] : List Int).get ⟨2, by decide⟩)) ∧
    (∀ p : Nat, p ≠ 1 → p ≠ 2 →
      fs_vector_engine.swap two_engine_store 1 2 p = two_engine_store p)) ∧
    (fs_vector_engine.swap two_engine_store 1 2 1 = some ⟨[1, 2, 3], rfl⟩ ∧
      fs_vector_engine.swap two_engine_store 1 2 2 = some ⟨[10, 20, 30], rfl⟩) :=
  ⟨⟨by decide, rfl, rfl, by decide⟩,
   C14_swap_exchanges_every_element two_engine_store 1 2 ⟨[10, 20, 30], rfl⟩ ⟨[1, 2, 3], rfl⟩
     (by decide) rfl rfl 2 (by decide),
   ⟨rfl, rfl⟩⟩

/-- C15: swapping an engine with itself, `swap(A, A)`, leaves the memory as it is: every element
of `A`, and of every other engine, is unchanged. -/
theorem C15_self_swap_changes_nothing (store : engine_store (fs_vector_engine T N)) (a : Nat) :
    fs_vector_engine.swap store a a = store := by
  unfold fs_vector_engine.swap
  rw [if_neg (fun h => h rfl)]

/-- C16: for an engine of length `N` and subscripts `i, j < N`, `swap_elements(i, j)` leaves at
`i` the element that was at `j`, at `j` the element that was at `i`, and every element at a
subscript `k` other than `i` and `j` as it was; for `i = j` the engine is as it was. -/
theorem C16_swap_elements_exchanges_two (self : fs_vector_engine T N) (i j : Nat) (hi : i < N)
    (hj : j < N) :
    (self.swap_elements i j).op_call i
      = some (self.ma_elems.get ⟨j, by rw [self.size_ok]; exact hj⟩) ∧
    (self.swap_elements i j).op_call j
      = some (self.ma_elems.get ⟨i, by rw [self.size_ok]; exact hi⟩) ∧
    (∀ k : Nat, k ≠ i → k ≠ j → (self.swap_elements i j).op_call k = self.op_call k) ∧
    (i = j → self.swap_elements i j = self) := by
  have hval : self.swap_elements i j =
      (self.set_elem i (self.ma_elems.get ⟨j, by rw [self.size_ok]; exact hj⟩)).set_elem j
        (self.ma_elems.get ⟨i, by rw [self.size_ok]; exact hi⟩) := by
    simp only [fs_vector_engine.swap_elements, getElem?_of_lt self i hi,
      getElem?_of_lt self j hj, detail.la_swap]
  have hread : ∀ k : Nat, (self.swap_elements i j).op_call k =
      if j = k ∧ k < N then some (self.ma_elems.get ⟨i, by rw [self.size_ok]; exact hi⟩)
      else if i = k ∧ k < N then some (self.ma_elems.get ⟨j, by rw [self.size_ok]; exact hj⟩)
      else self.ma_elems[k]? := by
    intro k
    rw [hval]
    show (fs_vector_engine.set_elem _ j _).ma_elems[k]? = _
    rw [getElem?_set_elem, getElem?_set_elem]
  refine ⟨?_, ?_, ?_, ?_⟩
  · rw [hread i]
    by_cases hji : j = i
    · subst hji
      rw [if_pos ⟨rfl, hj⟩]
    · rw [if_neg (fun h => hji h.1), if_pos ⟨rfl, hi⟩]
  · rw [hread j, if_pos ⟨rfl, hj⟩]
  · intro k hki hkj
    rw [hread k, if_neg (fun h => hkj h.1.symm), if_neg (fun h => hki h.1.symm)]
    rfl
  · intro hij
    subst hij
    apply fs_vector_engine_eq_of_elems
    apply List.ext_getElem?
    intro k
    have h := hread k
    unfold fs_vector_engine.op_call at h
    rw [h]
    by_cases hk : i = k
    · subst hk
      rw [if_pos ⟨rfl, hi⟩, getElem?_of_lt self i hi]
    · rw [if_neg (fun h => hk h.1), if_neg (fun h => hk h.1)]

/-- C16 at the engine `[10, 20, 30]`, `i = 0`, `j = 2`: the result is `[30, 20, 10]`. -/
theorem C16_swap_elements_exchanges_two_witness :
    (0 < 3 ∧ 2 < 3) ∧
    (((⟨[10, 20, 30], rfl⟩ : fs_vector_engine Int 3).swap_elements 0 2).op_call 0
        = some (([10, 20, 30] : List Int).get ⟨2, by decide⟩) ∧
      ((⟨[10, 20, 30], rfl⟩ : fs_vector_engine Int 3).swap_elements 0 2).op_call 2
        = some (([10, 20, 30] : List Int).get ⟨0, by decide⟩) ∧
      (∀ k : Nat, k ≠ 0 → k ≠ 2 →
        ((⟨[10, 20, 30], rfl⟩ : fs_vector_engine Int 3).swap_elements 0 2).op_call k
          = (⟨[10, 20, 30], rfl⟩ : fs_vector_engine Int 3).op_call k) ∧
      (0 = 2 → (⟨[10, 20, 30], rfl⟩ : fs_vector_engine Int 3).swap_elements 0 2
        = ⟨[10, 20, 30], rfl⟩)) ∧
    (⟨[10, 20, 30], rfl⟩ : fs_vector_engine Int 3).swap_elements 0 2 = ⟨[30, 20, 10], rfl⟩ :=
  ⟨⟨by decide, by decide⟩,
   C16_swap_elements_exchanges_two (⟨[10, 20, 30], rfl⟩ : fs_vector_engine Int 3) 0 2
     (by decide) (by decide),
   rfl⟩

end modifier_claims

/-! ## Claims about the iterators: positions -/

section position_claims

variable {T : Type} {N : Nat}

/-- A target position between 0 and a bound that fits the unsigned word is reached exactly. -/
theorem to_size_type_of_target (w : Nat) (upper : Nat) (t : Int) (hu : upper < 2 ^ w)
    (h0 : 0 ≤ t) (h1 : t ≤ upper) :
    ((to_size_type w t : Nat) : Int) = t ∧ to_size_type w t ≤ upper := by
  have hlt : t < 2 ^ w := by
    have : ((upper : Nat) : Int) < ((2 ^ w : Nat) : Int) := by exact_mod_cast hu
    push_cast at this
    omega
  have hval : ((to_size_type w t : Nat) : Int) = t := by
    rw [to_size_type_cast]
    exact Int.emod_eq_of_lt h0 hlt
  refine ⟨hval, ?_⟩
  have : ((to_size_type w t : Nat) : Int) ≤ (upper : Int) := by rw [hval]; exact h1
  exact_mod_cast this

/-- The unsigned difference of two positions below `2 ^ (w - 1)`, read as signed, is their
difference as integers. -/
theorem diff_of_positions (w : Nat) (p q : Nat) (hw : 0 < w) (hp : p < 2 ^ (w - 1))
    (hq : q < 2 ^ (w - 1)) :
    to_difference_type w (to_size_type w ((p : Int) - (q : Int))) = (p : Int) - (q : Int) := by
  have hp1 : (p : Int) < 2 ^ (w - 1) := by exact_mod_cast hp
  have hq1 : (q : Int) < 2 ^ (w - 1) := by exact_mod_cast hq
  rw [to_size_type_cast, to_difference_type_emod]
  exact to_difference_type_of_range w _ hw (by omega) (by omega)

/-- C17: the difference of two iterators over the same engine is the signed count of elements
between them: for positions `p` and `q`, each at most the upper bound of its iterator, the bounds
being below `2 ^ (w - 1)`, `a - b` is the integer `p - q`, negative when `p < q`. -/
theorem C17_iterator_difference_is_signed_count (w : Nat) (e p q up uq : Nat) (hw : 0 < w)
    (hup : up < 2 ^ (w - 1)) (huq : uq < 2 ^ (w - 1)) (hp : p ≤ up) (hq : q ≤ uq) :
    (vector_iterator.op_diff w (⟨e, p, up⟩ : vector_iterator T N) ⟨e, q, uq⟩
        = (p : Int) - (q : Int) ∧
      (p < q → vector_iterator.op_diff w (⟨e, p, up⟩ : vector_iterator T N) ⟨e, q, uq⟩ < 0)) ∧
    (vector_const_iterator.op_diff w (⟨e, p, up⟩ : vector_const_iterator T N) ⟨e, q, uq⟩
        = (p : Int) - (q : Int) ∧
      (p < q →
        vector_const_iterator.op_diff w (⟨e, p, up⟩ : vector_const_iterator T N) ⟨e, q, uq⟩
          < 0)) := by
  have h := diff_of_positions w p q hw (by omega) (by omega)
  have hneg : p < q → (p : Int) - (q : Int) < 0 := by
    intro hlt
    omega
  refine ⟨⟨h, fun hlt => ?_⟩, ⟨h, fun hlt => ?_⟩⟩
  · show to_difference_type w (to_size_type w ((p : Int) - (q : Int))) < 0
    rw [h]
    exact hneg hlt
  · show to_difference_type w (to_size_type w ((p : Int) - (q : Int))) < 0
    rw [h]
    exact hneg hlt

/-- C17 with words of 64 bits, at positions 0 and 3 of an engine of length 3: the difference is
-3. -/
theorem C17_iterator_difference_witness :
    (0 < 64 ∧ 3 < 2 ^ (64 - 1) ∧ 0 ≤ 3 ∧ 3 ≤ 3) ∧
    ((vector_iterator.op_diff 64 (⟨1, 0, 3⟩ : vector_iterator Int 3) ⟨1, 3, 3⟩
        = ((0 : Nat) : Int) - ((3 : Nat) : Int) ∧
      (0 < 3 → vector_iterator.op_diff 64 (⟨1, 0, 3⟩ : vector_iterator Int 3) ⟨1, 3, 3⟩ < 0)) ∧
    (vector_const_iterator.op_diff 64 (⟨1, 0, 3⟩ : vector_const_iterator Int 3) ⟨1, 3, 3⟩
        = ((0 : Nat) : Int) - ((3 : Nat) : Int) ∧
      (0 < 3 →
        vector_const_iterator.op_diff 64 (⟨1, 0, 3⟩ : vector_const_iterator Int 3) ⟨1, 3, 3⟩
          < 0))) ∧
    vector_iterator.op_diff 64 (⟨1, 0, 3⟩ : vector_iterator Int 3) ⟨1, 3, 3⟩ = -3 :=
  ⟨⟨by decide, by decide, by decide, by decide⟩,
   C17_iterator_difference_is_signed_count 64 1 0 3 3 3 (by decide) (by decide) (by decide)
     (by decide) (by decide),
   by decide⟩

/-- C18 fails as stated: with words of 64 bits, an iterator at its upper bound 3 is within its
bounds, and `++it`, `it + 1` and `it += 1` put the position at 4, above the bound; an iterator at
position 0 is within its bounds, and `--it`, `it - 1` and `it -= 1` put the position at
`2 ^ 64 - 1`, above the bound.  The same holds for the const iterator. -/
theorem C18_stepping_can_leave_the_bounds :
    ((⟨1, 3, 3⟩ : vector_iterator Int 3).m_curr ≤ (⟨1, 3, 3⟩ : vector_iterator Int 3).m_upper ∧
      (⟨1, 0, 3⟩ : vector_iterator Int 3).m_curr ≤ (⟨1, 0, 3⟩ : vector_iterator Int 3).m_upper) ∧
    (vector_iterator.op_pre_inc 64 (⟨1, 3, 3⟩ : vector_iterator Int 3) = ⟨1, 4, 3⟩ ∧
      vector_iterator.op_add 64 (⟨1, 3, 3⟩ : vector_iterator Int 3) 1 = ⟨1, 4, 3⟩ ∧
      vector_iterator.op_add_assign 64 (⟨1, 3, 3⟩ : vector_iterator Int 3) 1 = ⟨1, 4, 3⟩ ∧
      ¬ ((vector_iterator.op_pre_inc 64 (⟨1, 3, 3⟩ : vector_iterator Int 3)).m_curr
          ≤ (vector_iterator.op_pre_inc 64 (⟨1, 3, 3⟩ : vector_iterator Int 3)).m_upper)) ∧
    (vector_iterator.op_pre_dec 64 (⟨1, 0, 3⟩ : vector_iterator Int 3) = ⟨1, 2 ^ 64 - 1, 3⟩ ∧
      vector_iterator.op_sub 64 (⟨1, 0, 3⟩ : vector_iterator Int 3) 1 = ⟨1, 2 ^ 64 - 1, 3⟩ ∧
      vector_iterator.op_sub_assign 64 (⟨1, 0, 3⟩ : vector_iterator Int 3) 1
        = ⟨1, 2 ^ 64 - 1, 3⟩ ∧
      ¬ ((vector_iterator.op_pre_dec 64 (⟨1, 0, 3⟩ : vector_iterator Int 3)).m_curr
          ≤ (vector_iterator.op_pre_dec 64 (⟨1, 0, 3⟩ : vector_iterator Int 3)).m_upper)) ∧
    (¬ ((vector_const_iterator.op_pre_inc 64 (⟨1, 3, 3⟩ : vector_const_iterator Int 3)).m_curr
          ≤ (vector_const_iterator.op_pre_inc 64
              (⟨1, 3, 3⟩ : vector_const_iterator Int 3)).m_upper) ∧
      ¬ ((vector_const_iterator.op_pre_dec 64 (⟨1, 0, 3⟩ : vector_const_iterator Int 3)).m_curr
          ≤ (vector_const_iterator.op_pre_dec 64
              (⟨1, 0, 3⟩ : vector_const_iterator Int 3)).m_upper)) := by
  decide

/-- C18, amended: for an iterator at a position `p` between 0 and its upper bound inclusive, the
bound being an unsigned word of `w` bits, a traversal operation whose target position (`p + 1`,
`p - 1`, `p + n`, `p - n`, as integers) lies between 0 and the upper bound leaves or returns an
iterator whose position lies between 0 and the upper bound, with the engine pointer and the
upper bound unchanged: the prefix and compound forms leave the receiver at the target, the
binary forms return an iterator at the target, and of the iterator a postfix form returns and
the receiver it leaves, both with the engine pointer and the bound of the receiver, one is at
`p` and the other at the target. -/
theorem C18_stepping_to_a_target_within_bounds_stays_within (w : Nat) (e p upper : Nat)
    (n : Int) (hu : upper < 2 ^ w) (hp : p ≤ upper) :
    ((p + 1 ≤ upper →
        (vector_iterator.op_pre_inc w (⟨e, p, upper⟩ : vector_iterator T N) = ⟨e, p + 1, upper⟩ ∧
          (∃ t s : Nat,
            vector_iterator.op_post_inc w (⟨e, p, upper⟩ : vector_iterator T N)
              = (⟨e, t, upper⟩, ⟨e, s, upper⟩) ∧
            t ≤ upper ∧ s ≤ upper ∧ ((t = p + 1 ∧ s = p) ∨ (t = p ∧ s = p + 1))))) ∧
      (1 ≤ p →
        (vector_iterator.op_pre_dec w (⟨e, p, upper⟩ : vector_iterator T N) = ⟨e, p - 1, upper⟩ ∧
          (∃ t s : Nat,
            vector_iterator.op_post_dec w (⟨e, p, upper⟩ : vector_iterator T N)
              = (⟨e, t, upper⟩, ⟨e, s, upper⟩) ∧
            t ≤ upper ∧ s ≤ upper ∧ ((t = p - 1 ∧ s = p) ∨ (t = p ∧ s = p - 1))))) ∧
      (0 ≤ (p : Int) + n → (p : Int) + n ≤ upper →
        (∃ t : Nat, (t : Int) = (p : Int) + n ∧ t ≤ upper ∧
          vector_iterator.op_add w (⟨e, p, upper⟩ : vector_iterator T N) n
            = ⟨e, t, upper⟩ ∧
          vector_iterator.op_add_assign w (⟨e, p, upper⟩ : vector_iterator T N) n
            = ⟨e, t, upper⟩)) ∧
      (0 ≤ (p : Int) - n → (p : Int) - n ≤ upper →
        (∃ t : Nat, (t : Int) = (p : Int) - n ∧ t ≤ upper ∧
          vector_iterator.op_sub w (⟨e, p, upper⟩ : vector_iterator T N) n
            = ⟨e, t, upper⟩ ∧
          vector_iterator.op_sub_assign w (⟨e, p, upper⟩ : vector_iterator T N) n
            = ⟨e, t, upper⟩))) ∧
    ((p + 1 ≤ upper →
        (vector_const_iterator.op_pre_inc w (⟨e, p, upper⟩ : vector_const_iterator T N)
            = ⟨e, p + 1, upper⟩ ∧
          (∃ t s : Nat,
            vector_const_iterator.op_post_inc w (⟨e, p, upper⟩ : vector_const_iterator T N)
              = (⟨e, t, upper⟩, ⟨e, s, upper⟩) ∧
            t ≤ upper ∧ s ≤ upper ∧ ((t = p + 1 ∧ s = p) ∨ (t = p ∧ s = p + 1))))) ∧
      (1 ≤ p →
        (vector_const_iterator.op_pre_dec w (⟨e, p, upper⟩ : vector_const_iterator T N)
            = ⟨e, p - 1, upper⟩ ∧
          (∃ t s : Nat,
            vector_const_iterator.op_post_dec w (⟨e, p, upper⟩ : vector_const_iterator T N)
              = (⟨e, t, upper⟩, ⟨e, s, upper⟩) ∧
            t ≤ upper ∧ s ≤ upper ∧ ((t = p - 1 ∧ s = p) ∨ (t = p ∧ s = p - 1))))) ∧
      (0 ≤ (p : Int) + n → (p : Int) + n ≤ upper →
        (∃ t : Nat, (t : Int) = (p : Int) + n ∧ t ≤ upper ∧
          vector_const_iterator.op_add w (⟨e, p, upper⟩ : vector_const_iterator T N) n
            = ⟨e, t, upper⟩ ∧
          vector_const_iterator.op_add_assign w (⟨e, p, upper⟩ : vector_const_iterator T N) n
            = ⟨e, t, upper⟩)) ∧
      (0 ≤ (p : Int) - n → (p : Int) - n ≤ upper →
        (∃ t : Nat, (t : Int) = (p : Int) - n ∧ t ≤ upper ∧
          vector_const_iterator.op_sub w (⟨e, p, upper⟩ : vector_const_iterator T N) n
            = ⟨e, t, upper⟩ ∧
          vector_const_iterator.op_sub_assign w (⟨e, p, upper⟩ : vector_const_iterator T N) n
            = ⟨e, t, upper⟩))) := by
  have hinc : p + 1 ≤ upper → to_size_type w ((p : Int) + 1) = p + 1 := by
    intro h
    have := to_size_type_of_lt w (p + 1) (by omega)
    push_cast at this
    exact this
  have hdec : 1 ≤ p → to_size_type w ((p : Int) - 1) = p - 1 := by
    intro h
    have := to_size_type_of_lt w (p - 1) (by omega)
    rw [Nat.cast_sub h] at this
    push_cast at this
    exact this
  have htarget : ∀ t : Int, 0 ≤ t → t ≤ upper →
      ∃ u : Nat, (u : Int) = t ∧ u ≤ upper ∧ to_size_type w t = u := by
    intro t h0 h1
    obtain ⟨hv, hle⟩ := to_size_type_of_target w upper t hu h0 h1
    exact ⟨to_size_type w t, hv, hle, rfl⟩
  constructor
  · refine ⟨fun h => ⟨?_, p + 1, p, ?_, h, hp, Or.inl ⟨rfl, rfl⟩⟩,
      fun h => ⟨?_, p - 1, p, ?_, by omega, hp, Or.inl ⟨rfl, rfl⟩⟩,
      fun h0 h1 => ?_, fun h0 h1 => ?_⟩
    · show (⟨e, to_size_type w ((p : Int) + 1), upper⟩ : vector_iterator T N) = _
      rw [hinc h]
    · show ((⟨e, to_size_type w ((p : Int) + 1), upper⟩ : vector_iterator T N),
          (⟨e, p, upper⟩ : vector_iterator T N)) = _
      rw [hinc h]
    · show (⟨e, to_size_type w ((p : Int) - 1), upper⟩ : vector_iterator T N) = _
      rw [hdec h]
    · show ((⟨e, to_size_type w ((p : Int) - 1), upper⟩ : vector_iterator T N),
          (⟨e, p, upper⟩ : vector_iterator T N)) = _
      rw [hdec h]
    · obtain ⟨u, hv, hle, hval⟩ := htarget _ h0 h1
      refine ⟨u, hv, hle, ?_, ?_⟩
      · show (⟨e, to_size_type w ((p : Int) + n), upper⟩ : vector_iterator T N) = _
        rw [hval]
      · show (⟨e, to_size_type w ((p : Int) + n), upper⟩ : vector_iterator T N) = _
        rw [hval]
    · obtain ⟨u, hv, hle, hval⟩ := htarget _ h0 h1
      refine ⟨u, hv, hle, ?_, ?_⟩
      · show (⟨e, to_size_type w ((p : Int) - n), upper⟩ : vector_iterator T N) = _
        rw [hval]
      · show (⟨e, to_size_type w ((p : Int) - n), upper⟩ : vector_iterator T N) = _
        rw [hval]
  · refine ⟨fun h => ⟨?_, p + 1, p, ?_, h, hp, Or.inl ⟨rfl, rfl⟩⟩,
      fun h => ⟨?_, p - 1, p, ?_, by omega, hp, Or.inl ⟨rfl, rfl⟩⟩,
      fun h0 h1 => ?_, fun h0 h1 => ?_⟩
    · show (⟨e, to_size_type w ((p : Int) + 1), upper⟩ : vector_const_iterator T N) = _
      rw [hinc h]
    · show ((⟨e, to_size_type w ((p : Int) + 1), upper⟩ : vector_const_iterator T N),
          (⟨e, p, upper⟩ : vector_const_iterator T N)) = _
      rw [hinc h]
    · show (⟨e, to_size_type w ((p : Int) - 1), upper⟩ : vector_const_iterator T N) = _
      rw [hdec h]
    · show ((⟨e, to_size_type w ((p : Int) - 1), upper⟩ : vector_const_iterator T N),
          (⟨e, p, upper⟩ : vector_const_iterator T N)) = _
      rw [hdec h]
    · obtain ⟨u, hv, hle, hval⟩ := htarget _ h0 h1
      refine ⟨u, hv, hle, ?_, ?_⟩
      · show (⟨e, to_size_type w ((p : Int) + n), upper⟩ : vector_const_iterator T N) = _
        rw [hval]
      · show (⟨e, to_size_type w ((p : Int) + n), upper⟩ : vector_const_iterator T N) = _
        rw [hval]
    · obtain ⟨u, hv, hle, hval⟩ := htarget _ h0 h1
      refine ⟨u, hv, hle, ?_, ?_⟩
      · show (⟨e, to_size_type w ((p : Int) - n), upper⟩ : vector_const_iterator T N) = _
        rw [hval]
      · show (⟨e, to_size_type w ((p : Int) - n), upper⟩ : vector_const_iterator T N) = _
        rw [hval]

/-- C18, amended, with words of 64 bits at position 1 of an engine of length 3 and `n = 1`:
every target (2 for the forward steps, 0 for the backward steps) is within the bounds, each
operation reaches it, and every iterator left or returned has the bound 3. -/
theorem C18_stepping_to_a_target_witness :
    (3 < 2 ^ 64 ∧ 1 ≤ 3 ∧ 1 + 1 ≤ 3 ∧ 1 ≤ 1 ∧ (0 : Int) ≤ ((1 : Nat) : Int) + 1 ∧
      ((1 : Nat) : Int) + 1 ≤ ((3 : Nat) : Int) ∧ (0 : Int) ≤ ((1 : Nat) : Int) - 1 ∧
      ((1 : Nat) : Int) - 1 ≤ ((3 : Nat) : Int)) ∧
    (vector_iterator.op_pre_inc 64 (⟨1, 1, 3⟩ : vector_iterator Int 3) = ⟨1, 1 + 1, 3⟩ ∧
      vector_iterator.op_pre_dec 64 (⟨1, 1, 3⟩ : vector_iterator Int 3) = ⟨1, 1 - 1, 3⟩ ∧
      (∃ t s : Nat,
        vector_iterator.op_post_inc 64 (⟨1, 1, 3⟩ : vector_iterator Int 3)
          = (⟨1, t, 3⟩, ⟨1, s, 3⟩) ∧
        t ≤ 3 ∧ s ≤ 3 ∧ ((t = 1 + 1 ∧ s = 1) ∨ (t = 1 ∧ s = 1 + 1))) ∧
      (∃ t s : Nat,
        vector_iterator.op_post_dec 64 (⟨1, 1, 3⟩ : vector_iterator Int 3)
          = (⟨1, t, 3⟩, ⟨1, s, 3⟩) ∧
        t ≤ 3 ∧ s ≤ 3 ∧ ((t = 1 - 1 ∧ s = 1) ∨ (t = 1 ∧ s = 1 - 1))) ∧
      (∃ t : Nat, (t : Int) = ((1 : Nat) : Int) + 1 ∧ t ≤ 3 ∧
        vector_iterator.op_add 64 (⟨1, 1, 3⟩ : vector_iterator Int 3) 1 = ⟨1, t, 3⟩ ∧
        vector_iterator.op_add_assign 64 (⟨1, 1, 3⟩ : vector_iterator Int 3) 1 = ⟨1, t, 3⟩) ∧
      (∃ t : Nat, (t : Int) = ((1 : Nat) : Int) - 1 ∧ t ≤ 3 ∧
        vector_iterator.op_sub 64 (⟨1, 1, 3⟩ : vector_iterator Int 3) 1 = ⟨1, t, 3⟩ ∧
        vector_iterator.op_sub_assign 64 (⟨1, 1, 3⟩ : vector_iterator Int 3) 1 = ⟨1, t, 3⟩)) ∧
    (vector_const_iterator.op_pre_inc 64 (⟨1, 1, 3⟩ : vector_const_iterator Int 3)
        = ⟨1, 1 + 1, 3⟩ ∧
      vector_const_iterator.op_pre_dec 64 (⟨1, 1, 3⟩ : vector_const_iterator Int 3)
        = ⟨1, 1 - 1, 3⟩ ∧
      (∃ t s : Nat,
        vector_const_iterator.op_post_inc 64 (⟨1, 1, 3⟩ : vector_const_iterator Int 3)
          = (⟨1, t, 3⟩, ⟨1, s, 3⟩) ∧
        t ≤ 3 ∧ s ≤ 3 ∧ ((t = 1 + 1 ∧ s = 1) ∨ (t = 1 ∧ s = 1 + 1))) ∧
      (∃ t s : Nat,
        vector_const_iterator.op_post_dec 64 (⟨1, 1, 3⟩ : vector_const_iterator Int 3)
          = (⟨1, t, 3⟩, ⟨1, s, 3⟩) ∧
        t ≤ 3 ∧ s ≤ 3 ∧ ((t = 1 - 1 ∧ s = 1) ∨ (t = 1 ∧ s = 1 - 1)))) :=
  ⟨⟨by decide, by decide, by decide, by decide, by decide, by decide, by decide, by decide⟩,
   ⟨((@C18_stepping_to_a_target_within_bounds_stays_within Int 3 64 1 1 3 1
        (by decide) (by decide)).1.1 (by decide)).1,
    ((@C18_stepping_to_a_target_within_bounds_stays_within Int 3 64 1 1 3 1
        (by decide) (by decide)).1.2.1 (by decide)).1,
    ((@C18_stepping_to_a_target_within_bounds_stays_within Int 3 64 1 1 3 1
        (by decide) (by decide)).1.1 (by decide)).2,
    ((@C18_stepping_to_a_target_within_bounds_stays_within Int 3 64 1 1 3 1
        (by decide) (by decide)).1.2.1 (by decide)).2,
    (@C18_stepping_to_a_target_within_bounds_stays_within Int 3 64 1 1 3 1
        (by decide) (by decide)).1.2.2.1 (by decide) (by decide),
    (@C18_stepping_to_a_target_within_bounds_stays_within Int 3 64 1 1 3 1
        (by decide) (by decide)).1.2.2.2 (by decide) (by decide)⟩,
   ⟨((@C18_stepping_to_a_target_within_bounds_stays_within Int 3 64 1 1 3 1
        (by decide) (by decide)).2.1 (by decide)).1,
    ((@C18_stepping_to_a_target_within_bounds_stays_within Int 3 64 1 1 3 1
        (by decide) (by decide)).2.2.1 (by decide)).1,
    ((@C18_stepping_to_a_target_within_bounds_stays_within Int 3 64 1 1 3 1
        (by decide) (by decide)).2.1 (by decide)).2,
    ((@C18_stepping_to_a_target_within_bounds_stays_within Int 3 64 1 1 3 1
        (by decide) (by decide)).2.2.1 (by decide)).2⟩⟩

end position_claims

/-! ## Claims about the iterators: the walk and the binary offsets -/

section walk_claims

variable {T : Type} {N : Nat}

/-- The full-range mutable iterator of an engine whose length fits the unsigned word. -/
theorem vector_iterator_ctor_engine (w : Nat) (a : Nat) (hN : N < 2 ^ w) :
    (vector_iterator.ctor_engine w a : vector_iterator T N) = ⟨a, 0, N⟩ := by
  show (⟨a, 0, to_size_type w ((N : Nat) : Int)⟩ : vector_iterator T N) = _
  rw [to_size_type_of_lt w N hN]

/-- The full-range const iterator of an engine whose length fits the unsigned word. -/
theorem vector_const_iterator_ctor_engine (w : Nat) (a : Nat) (hN : N < 2 ^ w) :
    (vector_const_iterator.ctor_engine w a : vector_const_iterator T N) = ⟨a, 0, N⟩ := by
  show (⟨a, 0, to_size_type w ((N : Nat) : Int)⟩ : vector_const_iterator T N) = _
  rw [to_size_type_of_lt w N hN]

/-- A mutable iterator at position 0 is at position `k` after `k` prefix increments, when `k` fits
the unsigned word. -/
theorem vector_iterator_iterate_pre_inc (w : Nat) (a u : Nat) :
    ∀ k : Nat, k < 2 ^ w →
      Nat.iterate (vector_iterator.op_pre_inc w) k (⟨a, 0, u⟩ : vector_iterator T N)
        = ⟨a, k, u⟩ := by
  intro k
  induction k with
  | zero => intro _; rfl
  | succ k ih =>
    intro hk
    rw [Function.iterate_succ_apply', ih (by omega)]
    show (⟨a, to_size_type w ((k : Int) + 1), u⟩ : vector_iterator T N) = _
    have h := to_size_type_of_lt w (k + 1) hk
    push_cast at h
    rw [h]

/-- A const iterator at position 0 is at position `k` after `k` prefix increments, when `k` fits
the unsigned word. -/
theorem vector_const_iterator_iterate_pre_inc (w : Nat) (a u : Nat) :
    ∀ k : Nat, k < 2 ^ w →
      Nat.iterate (vector_const_iterator.op_pre_inc w) k
          (⟨a, 0, u⟩ : vector_const_iterator T N)
        = ⟨a, k, u⟩ := by
  intro k
  induction k with
  | zero => intro _; rfl
  | succ k ih =>
    intro hk
    rw [Function.iterate_succ_apply', ih (by omega)]
    show (⟨a, to_size_type w ((k : Int) + 1), u⟩ : vector_const_iterator T N) = _
    have h := to_size_type_of_lt w (k + 1) hk
    push_cast at h
    rw [h]

/-- The reads of a live engine at the subscripts `0, ..., N - 1`, in order, are its elements. -/
theorem reads_in_order (store : engine_store (fs_vector_engine T N)) (E : fs_vector_engine T N)
    (a : Nat) (ha : a ≠ nullptr) (hE : store a = some E) :
    (List.range N).map (fun j => engine_at store a j) = E.ma_elems.map some := by
  apply List.ext_getElem?
  intro j
  by_cases hj : j < N
  · rw [List.getElem?_map, List.getElem?_map, List.getElem?_range hj,
      List.getElem?_eq_getElem (by rw [E.size_ok]; exact hj)]
    simp only [Option.map_some']
    rw [engine_at_live store a E ha hE j]
    exact congrArg some (List.getElem?_eq_getElem (by rw [E.size_ok]; exact hj))
  · rw [List.getElem?_eq_none_iff.mpr (by simp; omega),
      List.getElem?_eq_none_iff.mpr (by simp [E.size_ok]; omega)]

/-- C19: for a live engine `E` of length `N` (a length that fits the unsigned word), the
full-range iterator starts at position 0 with bound `N`; after `k` prefix increments, `k ≤ N`, it
is at position `k`, dereferences to the element `E(k)` when `k < N`, and compares equal to the
iterator constructed over `E` at position `N` with bound `N` if and only if `k = N`; the
dereferences met on the way from the start to the end are `E(0), ..., E(N - 1)`, in order, each
once.  It holds for the mutable and for the const iterator. -/
theorem C19_full_range_walk_visits_every_element (w : Nat)
    (store : engine_store (fs_vector_engine T N)) (E : fs_vector_engine T N) (a k : Nat)
    (hN : N < 2 ^ w) (ha : a ≠ nullptr) (hE : store a = some E) (hk : k ≤ N) :
    ((vector_iterator.ctor_engine w a : vector_iterator T N) = ⟨a, 0, N⟩ ∧
      Nat.iterate (vector_iterator.op_pre_inc w) k
          (vector_iterator.ctor_engine w a : vector_iterator T N) = ⟨a, k, N⟩ ∧
      (k < N →
        vector_iterator.op_deref store (Nat.iterate (vector_iterator.op_pre_inc w) k
            (vector_iterator.ctor_engine w a : vector_iterator T N)) = E.op_call k ∧
        (E.op_call k).isSome = true) ∧
      (vector_iterator.op_eq (Nat.iterate (vector_iterator.op_pre_inc w) k
            (vector_iterator.ctor_engine w a : vector_iterator T N))
          (vector_iterator.ctor_range a N N) = true ↔ k = N) ∧
      (List.range N).map (fun j => vector_iterator.op_deref store
          (Nat.iterate (vector_iterator.op_pre_inc w) j
            (vector_iterator.ctor_engine w a : vector_iterator T N)))
        = E.ma_elems.map some) ∧
    ((vector_const_iterator.ctor_engine w a : vector_const_iterator T N) = ⟨a, 0, N⟩ ∧
      Nat.iterate (vector_const_iterator.op_pre_inc w) k
          (vector_const_iterator.ctor_engine w a : vector_const_iterator T N) = ⟨a, k, N⟩ ∧
      (k < N →
        vector_const_iterator.op_deref store (Nat.iterate (vector_const_iterator.op_pre_inc w) k
            (vector_const_iterator.ctor_engine w a : vector_const_iterator T N)) = E.op_call k ∧
        (E.op_call k).isSome = true) ∧
      (vector_const_iterator.op_eq (Nat.iterate (vector_const_iterator.op_pre_inc w) k
            (vector_const_iterator.ctor_engine w a : vector_const_iterator T N))
          (vector_const_iterator.ctor_range a N N) = true ↔ k = N) ∧
      (List.range N).map (fun j => vector_const_iterator.op_deref store
          (Nat.iterate (vector_const_iterator.op_pre_inc w) j
            (vector_const_iterator.ctor_engine w a : vector_const_iterator T N)))
        = E.ma_elems.map some) := by
  have hsome : ∀ i, i < N → (E.op_call i).isSome = true := by
    intro i hi
    unfold fs_vector_engine.op_call
    rw [List.getElem?_eq_getElem (by rw [E.size_ok]; exact hi)]
    rfl
  constructor
  · have hiter : ∀ j : Nat, j ≤ N →
        Nat.iterate (vector_iterator.op_pre_inc w) j
          (vector_iterator.ctor_engine w a : vector_iterator T N) = ⟨a, j, N⟩ := by
      intro j hj
      rw [vector_iterator_ctor_engine w a hN]
      exact vector_iterator_iterate_pre_inc w a N j (by omega)
    refine ⟨vector_iterator_ctor_engine w a hN, hiter k hk, fun hlt => ⟨?_, hsome k hlt⟩, ?_, ?_⟩
    · rw [hiter k hk]
      exact engine_at_live store a E ha hE k
    · rw [hiter k hk]
      simp [vector_iterator.op_eq, vector_iterator.equals, vector_iterator.ctor_range]
    · rw [← reads_in_order store E a ha hE]
      apply List.map_congr_left
      intro j hj
      rw [hiter j (by have := List.mem_range.mp hj; omega)]
      rfl
  · have hiter : ∀ j : Nat, j ≤ N →
        Nat.iterate (vector_const_iterator.op_pre_inc w) j
          (vector_const_iterator.ctor_engine w a : vector_const_iterator T N) = ⟨a, j, N⟩ := by
      intro j hj
      rw [vector_const_iterator_ctor_engine w a hN]
      exact vector_const_iterator_iterate_pre_inc w a N j (by omega)
    refine ⟨vector_const_iterator_ctor_engine w a hN, hiter k hk,
      fun hlt => ⟨?_, hsome k hlt⟩, ?_, ?_⟩
    · rw [hiter k hk]
      exact engine_at_live store a E ha hE k
    · rw [hiter k hk]
      simp [vector_const_iterator.op_eq, vector_const_iterator.equals,
        vector_const_iterator.ctor_range]
    · rw [← reads_in_order store E a ha hE]
      apply List.map_congr_left
      intro j hj
      rw [hiter j (by have := List.mem_range.mp hj; omega)]
      rfl

/-- C19 with words of 64 bits, at the engine `[10, 20, 30]` living at address 1 and `k = 3`:
after three increments the iterator is at position 3 and equals the end iterator, and the walk
reads 10, 20, 30. -/
theorem C19_full_range_walk_witness :
    (3 < 2 ^ 64 ∧ (1 : Nat) ≠ nullptr ∧
      example_store 1 = some (⟨[10, 20, 30], rfl⟩ : fs_vector_engine Int 3) ∧ 3 ≤ 3) ∧
    Nat.iterate (vector_iterator.op_pre_inc 64) 3
        (vector_iterator.ctor_engine 64 1 : vector_iterator Int 3) = ⟨1, 3, 3⟩ ∧
    (vector_iterator.op_eq (Nat.iterate (vector_iterator.op_pre_inc 64) 3
          (vector_iterator.ctor_engine 64 1 : vector_iterator Int 3))
        (vector_iterator.ctor_range 1 3 3) = true ↔ 3 = 3) ∧
    (List.range 3).map (fun j => vector_iterator.op_deref example_store
        (Nat.iterate (vector_iterator.op_pre_inc 64) j
          (vector_iterator.ctor_engine 64 1 : vector_iterator Int 3)))
      = ([10, 20, 30] : List Int).map some ∧
    (List.range 3).map (fun j => vector_const_iterator.op_deref example_store
        (Nat.iterate (vector_const_iterator.op_pre_inc 64) j
          (vector_const_iterator.ctor_engine 64 1 : vector_const_iterator Int 3)))
      = ([10, 20, 30] : List Int).map some :=
  ⟨⟨by decide, by decide, rfl, by decide⟩,
   (@C19_full_range_walk_visits_every_element Int 3 64 example_store ⟨[10, 20, 30], rfl⟩ 1 3
      (by decide) (by decide) rfl (by decide)).1.2.1,
   (@C19_full_range_walk_visits_every_element Int 3 64 example_store ⟨[10, 20, 30], rfl⟩ 1 3
      (by decide) (by decide) rfl (by decide)).1.2.2.2.1,
   (@C19_full_range_walk_visits_every_element Int 3 64 example_store ⟨[10, 20, 30], rfl⟩ 1 3
      (by decide) (by decide) rfl (by decide)).1.2.2.2.2,
   (@C19_full_range_walk_visits_every_element Int 3 64 example_store ⟨[10, 20, 30], rfl⟩ 1 3
      (by decide) (by decide) rfl (by decide)).2.2.2.2.2⟩

/-- C20: the binary forms `it + n` and `it - n` leave the receiver as it is (engine pointer,
position and bound), and the iterator they return has the engine pointer and the bound of the
receiver and its position shifted by `n`: the position is `p + n`, respectively `p - n`, reduced
modulo `2 ^ w`, which is `p + n`, respectively `p - n`, itself when that lies in the range of the
unsigned word. -/
theorem C20_binary_offsets_do_not_move_the_receiver (w : Nat) (it : vector_iterator T N)
    (cit : vector_const_iterator T N) (n : Int) :
    ((vector_iterator.call_op_add w it n).2 = it ∧
      (vector_iterator.call_op_add w it n).1.mp_engine = it.mp_engine ∧
      (vector_iterator.call_op_add w it n).1.m_upper = it.m_upper ∧
      (((vector_iterator.call_op_add w it n).1.m_curr : Nat) : Int)
        = ((it.m_curr : Int) + n) % 2 ^ w ∧
      (vector_iterator.call_op_sub w it n).2 = it ∧
      (vector_iterator.call_op_sub w it n).1.mp_engine = it.mp_engine ∧
      (vector_iterator.call_op_sub w it n).1.m_upper = it.m_upper ∧
      (((vector_iterator.call_op_sub w it n).1.m_curr : Nat) : Int)
        = ((it.m_curr : Int) - n) % 2 ^ w ∧
      (0 ≤ (it.m_curr : Int) + n → (it.m_curr : Int) + n < 2 ^ w →
        (((vector_iterator.call_op_add w it n).1.m_curr : Nat) : Int)
          = (it.m_curr : Int) + n) ∧
      (0 ≤ (it.m_curr : Int) - n → (it.m_curr : Int) - n < 2 ^ w →
        (((vector_iterator.call_op_sub w it n).1.m_curr : Nat) : Int)
          = (it.m_curr : Int) - n)) ∧
    ((vector_const_iterator.call_op_add w cit n).2 = cit ∧
      (vector_const_iterator.call_op_add w cit n).1.mp_engine = cit.mp_engine ∧
      (vector_const_iterator.call_op_add w cit n).1.m_upper = cit.m_upper ∧
      (((vector_const_iterator.call_op_add w cit n).1.m_curr : Nat) : Int)
        = ((cit.m_curr : Int) + n) % 2 ^ w ∧
      (vector_const_iterator.call_op_sub w cit n).2 = cit ∧
      (vector_const_iterator.call_op_sub w cit n).1.mp_engine = cit.mp_engine ∧
      (vector_const_iterator.call_op_sub w cit n).1.m_upper = cit.m_upper ∧
      (((vector_const_iterator.call_op_sub w cit n).1.m_curr : Nat) : Int)
        = ((cit.m_curr : Int) - n) % 2 ^ w ∧
      (0 ≤ (cit.m_curr : Int) + n → (cit.m_curr : Int) + n < 2 ^ w →
        (((vector_const_iterator.call_op_add w cit n).1.m_curr : Nat) : Int)
          = (cit.m_curr : Int) + n) ∧
      (0 ≤ (cit.m_curr : Int) - n → (cit.m_curr : Int) - n < 2 ^ w →
        (((vector_const_iterator.call_op_sub w cit n).1.m_curr : Nat) : Int)
          = (cit.m_curr : Int) - n)) := by
  have hexact : ∀ t : Int, 0 ≤ t → t < 2 ^ w → ((to_size_type w t : Nat) : Int) = t := by
    intro t h0 h1
    rw [to_size_type_cast]
    exact Int.emod_eq_of_lt h0 h1
  exact ⟨⟨rfl, rfl, rfl, to_size_type_cast w _, rfl, rfl, rfl, to_size_type_cast w _,
      fun h0 h1 => hexact _ h0 h1, fun h0 h1 => hexact _ h0 h1⟩,
    ⟨rfl, rfl, rfl, to_size_type_cast w _, rfl, rfl, rfl, to_size_type_cast w _,
      fun h0 h1 => hexact _ h0 h1, fun h0 h1 => hexact _ h0 h1⟩⟩

/-- C20 with words of 64 bits at the iterator at position 1 with bound 3: `it + 1` returns the
iterator at position 2, `it - 1` the iterator at position 0, and the receiver stays at
position 1. -/
theorem C20_binary_offsets_witness :
    vector_iterator.call_op_add 64 (⟨1, 1, 3⟩ : vector_iterator Int 3) 1
      = (⟨1, 2, 3⟩, ⟨1, 1, 3⟩) ∧
    vector_iterator.call_op_sub 64 (⟨1, 1, 3⟩ : vector_iterator Int 3) 1
      = (⟨1, 0, 3⟩, ⟨1, 1, 3⟩) ∧
    (vector_iterator.call_op_add 64 (⟨1, 1, 3⟩ : vector_iterator Int 3) 1).2 = ⟨1, 1, 3⟩ ∧
    (vector_const_iterator.call_op_sub 64 (⟨1, 1, 3⟩ : vector_const_iterator Int 3) 1).2
      = ⟨1, 1, 3⟩ :=
  ⟨by decide, by decide,
   (C20_binary_offsets_do_not_move_the_receiver 64 (⟨1, 1, 3⟩ : vector_iterator Int 3)
      (⟨1, 1, 3⟩ : vector_const_iterator Int 3) 1).1.1,
   (C20_binary_offsets_do_not_move_the_receiver 64 (⟨1, 1, 3⟩ : vector_iterator Int 3)
      (⟨1, 1, 3⟩ : vector_const_iterator Int 3) 1).2.2.2.2.2.1⟩

end walk_claims

/-! ## Claims about the iterators: order, inverse steps and the bound -/

section order_claims

variable {T : Type} {N : Nat}

/-- C21: for two iterators over the same engine, exactly one of `a < b`, `a == b`, `a > b`
holds, `a <= b` holds if and only if `a < b` or `a == b`, and `a >= b` holds if and only if
`a > b` or `a == b`; for the mutable and for the const iterator. -/
theorem C21_same_engine_comparisons_are_a_total_order (a b : vector_iterator T N)
    (ca cb : vector_const_iterator T N) (hab : a.mp_engine = b.mp_engine)
    (hcab : ca.mp_engine = cb.mp_engine) :
    ((vector_iterator.op_lt a b = true ∨
          vector_iterator.op_eq a b = true ∨
          vector_iterator.op_gt a b = true) ∧
      ¬ (vector_iterator.op_lt a b = true ∧
          vector_iterator.op_eq a b = true) ∧
      ¬ (vector_iterator.op_lt a b = true ∧
          vector_iterator.op_gt a b = true) ∧
      ¬ (vector_iterator.op_eq a b = true ∧
          vector_iterator.op_gt a b = true) ∧
      (vector_iterator.op_le a b = true ↔
          vector_iterator.op_lt a b = true ∨
          vector_iterator.op_eq a b = true) ∧
      (vector_iterator.op_ge a b = true ↔
          vector_iterator.op_gt a b = true ∨
          vector_iterator.op_eq a b = true)) ∧
    ((vector_const_iterator.op_lt ca cb = true ∨
          vector_const_iterator.op_eq ca cb = true ∨
          vector_const_iterator.op_gt ca cb = true) ∧
      ¬ (vector_const_iterator.op_lt ca cb = true ∧
          vector_const_iterator.op_eq ca cb = true) ∧
      ¬ (vector_const_iterator.op_lt ca cb = true ∧
          vector_const_iterator.op_gt ca cb = true) ∧
      ¬ (vector_const_iterator.op_eq ca cb = true ∧
          vector_const_iterator.op_gt ca cb = true) ∧
      (vector_const_iterator.op_le ca cb = true ↔
          vector_const_iterator.op_lt ca cb = true ∨
          vector_const_iterator.op_eq ca cb = true) ∧
      (vector_const_iterator.op_ge ca cb = true ↔
          vector_const_iterator.op_gt ca cb = true ∨
          vector_const_iterator.op_eq ca cb = true)) := by
  have hnat : ∀ p q : Nat,
      ((p < q ∨ p = q ∨ p > q) ∧ ¬ (p < q ∧ p = q) ∧ ¬ (p < q ∧ p > q) ∧ ¬ (p = q ∧ p > q) ∧
        (¬ p > q ↔ p < q ∨ p = q) ∧ (¬ p < q ↔ p > q ∨ p = q)) := by
    intro p q
    omega
  constructor
  · simpa [vector_iterator.op_lt, vector_iterator.op_eq, vector_iterator.op_gt,
      vector_iterator.op_le, vector_iterator.op_ge, vector_iterator.less_than,
      vector_iterator.equals, vector_iterator.greater_than, hab] using hnat a.m_curr b.m_curr
  · simpa [vector_const_iterator.op_lt, vector_const_iterator.op_eq,
      vector_const_iterator.op_gt, vector_const_iterator.op_le, vector_const_iterator.op_ge,
      vector_const_iterator.less_than, vector_const_iterator.equals,
      vector_const_iterator.greater_than, hcab] using hnat ca.m_curr cb.m_curr

/-- C21 at the iterators at positions 1 and 2 of the engine at address 1: `a < b` and `a <= b`
hold, and `a == b`, `a > b` and `a >= b` do not. -/
theorem C21_same_engine_comparisons_witness :
    ((1 : Nat) = 1 ∧ (1 : Nat) = 1) ∧
    (((vector_iterator.op_lt
            (⟨1, 1, 3⟩ : vector_iterator Int 3) ⟨1, 2, 3⟩ = true ∨
          vector_iterator.op_eq
            (⟨1, 1, 3⟩ : vector_iterator Int 3) ⟨1, 2, 3⟩ = true ∨
          vector_iterator.op_gt
            (⟨1, 1, 3⟩ : vector_iterator Int 3) ⟨1, 2, 3⟩ = true) ∧
      ¬ (vector_iterator.op_lt
            (⟨1, 1, 3⟩ : vector_iterator Int 3) ⟨1, 2, 3⟩ = true ∧
          vector_iterator.op_eq
            (⟨1, 1, 3⟩ : vector_iterator Int 3) ⟨1, 2, 3⟩ = true) ∧
      ¬ (vector_iterator.op_lt
            (⟨1, 1, 3⟩ : vector_iterator Int 3) ⟨1, 2, 3⟩ = true ∧
          vector_iterator.op_gt
            (⟨1, 1, 3⟩ : vector_iterator Int 3) ⟨1, 2, 3⟩ = true) ∧
      ¬ (vector_iterator.op_eq
            (⟨1, 1, 3⟩ : vector_iterator Int 3) ⟨1, 2, 3⟩ = true ∧
          vector_iterator.op_gt
            (⟨1, 1, 3⟩ : vector_iterator Int 3) ⟨1, 2, 3⟩ = true) ∧
      (vector_iterator.op_le
            (⟨1, 1, 3⟩ : vector_iterator Int 3) ⟨1, 2, 3⟩ = true ↔
          vector_iterator.op_lt
            (⟨1, 1, 3⟩ : vector_iterator Int 3) ⟨1, 2, 3⟩ = true ∨
          vector_iterator.op_eq
            (⟨1, 1, 3⟩ : vector_iterator Int 3) ⟨1, 2, 3⟩ = true) ∧
      (vector_iterator.op_ge
            (⟨1, 1, 3⟩ : vector_iterator Int 3) ⟨1, 2, 3⟩ = true ↔
          vector_iterator.op_gt
            (⟨1, 1, 3⟩ : vector_iterator Int 3) ⟨1, 2, 3⟩ = true ∨
          vector_iterator.op_eq
            (⟨1, 1, 3⟩ : vector_iterator Int 3) ⟨1, 2, 3⟩ = true)) ∧
    ((vector_const_iterator.op_lt
            (⟨1, 1, 3⟩ : vector_const_iterator Int 3) ⟨1, 2, 3⟩ = true ∨
          vector_const_iterator.op_eq
            (⟨1, 1, 3⟩ : vector_const_iterator Int 3) ⟨1, 2, 3⟩ = true ∨
          vector_const_iterator.op_gt
            (⟨1, 1, 3⟩ : vector_const_iterator Int 3) ⟨1, 2, 3⟩ = true) ∧
      ¬ (vector_const_iterator.op_lt
            (⟨1, 1, 3⟩ : vector_const_iterator Int 3) ⟨1, 2, 3⟩ = true ∧
          vector_const_iterator.op_eq
            (⟨1, 1, 3⟩ : vector_const_iterator Int 3) ⟨1, 2, 3⟩ = true) ∧
      ¬ (vector_const_iterator.op_lt
            (⟨1, 1, 3⟩ : vector_const_iterator Int 3) ⟨1, 2, 3⟩ = true ∧
          vector_const_iterator.op_gt
            (⟨1, 1, 3⟩ : vector_const_iterator Int 3) ⟨1, 2, 3⟩ = true) ∧
      ¬ (vector_const_iterator.op_eq
            (⟨1, 1, 3⟩ : vector_const_iterator Int 3) ⟨1, 2, 3⟩ = true ∧
          vector_const_iterator.op_gt
            (⟨1, 1, 3⟩ : vector_const_iterator Int 3) ⟨1, 2, 3⟩ = true) ∧
      (vector_const_iterator.op_le
            (⟨1, 1, 3⟩ : vector_const_iterator Int 3) ⟨1, 2, 3⟩ = true ↔
          vector_const_iterator.op_lt
            (⟨1, 1, 3⟩ : vector_const_iterator Int 3) ⟨1, 2, 3⟩ = true ∨
          vector_const_iterator.op_eq
            (⟨1, 1, 3⟩ : vector_const_iterator Int 3) ⟨1, 2, 3⟩ = true) ∧
      (vector_const_iterator.op_ge
            (⟨1, 1, 3⟩ : vector_const_iterator Int 3) ⟨1, 2, 3⟩ = true ↔
          vector_const_iterator.op_gt
            (⟨1, 1, 3⟩ : vector_const_iterator Int 3) ⟨1, 2, 3⟩ = true ∨
          vector_const_iterator.op_eq
            (⟨1, 1, 3⟩ : vector_const_iterator Int 3) ⟨1, 2, 3⟩ = true))) ∧
    (vector_iterator.op_lt (⟨1, 1, 3⟩ : vector_iterator Int 3) ⟨1, 2, 3⟩ = true ∧
      vector_iterator.op_le (⟨1, 1, 3⟩ : vector_iterator Int 3) ⟨1, 2, 3⟩ = true ∧
      vector_iterator.op_eq (⟨1, 1, 3⟩ : vector_iterator Int 3) ⟨1, 2, 3⟩ = false ∧
      vector_iterator.op_gt (⟨1, 1, 3⟩ : vector_iterator Int 3) ⟨1, 2, 3⟩ = false ∧
      vector_iterator.op_ge (⟨1, 1, 3⟩ : vector_iterator Int 3) ⟨1, 2, 3⟩ = false) :=
  ⟨⟨rfl, rfl⟩,
   C21_same_engine_comparisons_are_a_total_order (⟨1, 1, 3⟩ : vector_iterator Int 3) ⟨1, 2, 3⟩
     (⟨1, 1, 3⟩ : vector_const_iterator Int 3) ⟨1, 2, 3⟩ rfl rfl,
   by decide⟩

/-- A position advanced by `n` and then moved back by `n`, both modulo `2 ^ w`, is the position
again. -/
theorem to_size_type_add_sub (w : Nat) (p : Nat) (n : Int) (hp : p < 2 ^ w) :
    to_size_type w (((to_size_type w ((p : Int) + n) : Nat) : Int) - n) = p := by
  have h : ((to_size_type w (((to_size_type w ((p : Int) + n) : Nat) : Int) - n) : Nat) : Int)
      = (p : Int) := by
    rw [to_size_type_cast, to_size_type_cast, Int.sub_emod, Int.emod_emod, ← Int.sub_emod,
      add_sub_cancel_right]
    apply Int.emod_eq_of_lt (Int.natCast_nonneg p)
    exact_mod_cast hp
  exact_mod_cast h

/-- C22: under the arithmetic modulo `2 ^ w` of the position, for every iterator (its position
being an unsigned word of `w` bits) and every integer `n`: `++it` followed by `--it` gives the
iterator back, `it += n` followed by `it -= n` gives it back, and `(it + n) - n` is the
iterator, with the same engine pointer, position and bound; position 0 is no exception.  It
holds for the mutable and for the const iterator. -/
theorem C22_steps_are_undone_by_their_inverse (w : Nat) (e p upper : Nat) (n : Int)
    (hp : p < 2 ^ w) :
    (vector_iterator.op_pre_dec w
            (vector_iterator.op_pre_inc w
              (⟨e, p, upper⟩ : vector_iterator T N))
          = ⟨e, p, upper⟩ ∧
      vector_iterator.op_sub_assign w
            (vector_iterator.op_add_assign w
              (⟨e, p, upper⟩ : vector_iterator T N) n) n
          = ⟨e, p, upper⟩ ∧
      vector_iterator.op_sub w
            (vector_iterator.op_add w
              (⟨e, p, upper⟩ : vector_iterator T N) n) n
          = ⟨e, p, upper⟩) ∧
    (vector_const_iterator.op_pre_dec w
            (vector_const_iterator.op_pre_inc w
              (⟨e, p, upper⟩ : vector_const_iterator T N))
          = ⟨e, p, upper⟩ ∧
      vector_const_iterator.op_sub_assign w
            (vector_const_iterator.op_add_assign w
              (⟨e, p, upper⟩ : vector_const_iterator T N) n) n
          = ⟨e, p, upper⟩ ∧
      vector_const_iterator.op_sub w
            (vector_const_iterator.op_add w
              (⟨e, p, upper⟩ : vector_const_iterator T N) n) n
          = ⟨e, p, upper⟩) := by
  have hn := to_size_type_add_sub w p n hp
  have h1 := to_size_type_add_sub w p 1 hp
  refine ⟨⟨?_, ?_, ?_⟩, ⟨?_, ?_, ?_⟩⟩
  · show (⟨e, to_size_type w (((to_size_type w ((p : Int) + 1) : Nat) : Int) - 1), upper⟩ :
      vector_iterator T N) = _
    rw [h1]
  · show (⟨e, to_size_type w (((to_size_type w ((p : Int) + n) : Nat) : Int) - n), upper⟩ :
      vector_iterator T N) = _
    rw [hn]
  · show (⟨e, to_size_type w (((to_size_type w ((p : Int) + n) : Nat) : Int) - n), upper⟩ :
      vector_iterator T N) = _
    rw [hn]
  · show (⟨e, to_size_type w (((to_size_type w ((p : Int) + 1) : Nat) : Int) - 1), upper⟩ :
      vector_const_iterator T N) = _
    rw [h1]
  · show (⟨e, to_size_type w (((to_size_type w ((p : Int) + n) : Nat) : Int) - n), upper⟩ :
      vector_const_iterator T N) = _
    rw [hn]
  · show (⟨e, to_size_type w (((to_size_type w ((p : Int) + n) : Nat) : Int) - n), upper⟩ :
      vector_const_iterator T N) = _
    rw [hn]

/-- C22 with words of 64 bits at position 0 and `n = -1`: `it + (-1)` is at position
`2 ^ 64 - 1`, and moving back by -1 gives position 0 again. -/
theorem C22_steps_are_undone_witness :
    (0 < 2 ^ 64) ∧
    ((vector_iterator.op_pre_dec 64
            (vector_iterator.op_pre_inc 64
              (⟨1, 0, 3⟩ : vector_iterator Int 3))
          = ⟨1, 0, 3⟩ ∧
      vector_iterator.op_sub_assign 64
            (vector_iterator.op_add_assign 64
              (⟨1, 0, 3⟩ : vector_iterator Int 3) (-1)) (-1)
          = ⟨1, 0, 3⟩ ∧
      vector_iterator.op_sub 64
            (vector_iterator.op_add 64
              (⟨1, 0, 3⟩ : vector_iterator Int 3) (-1)) (-1)
          = ⟨1, 0, 3⟩) ∧
    (vector_const_iterator.op_pre_dec 64
            (vector_const_iterator.op_pre_inc 64
              (⟨1, 0, 3⟩ : vector_const_iterator Int 3))
          = ⟨1, 0, 3⟩ ∧
      vector_const_iterator.op_sub_assign 64
            (vector_const_iterator.op_add_assign 64
              (⟨1, 0, 3⟩ : vector_const_iterator Int 3) (-1)) (-1)
          = ⟨1, 0, 3⟩ ∧
      vector_const_iterator.op_sub 64
            (vector_const_iterator.op_add 64
              (⟨1, 0, 3⟩ : vector_const_iterator Int 3) (-1)) (-1)
          = ⟨1, 0, 3⟩)) ∧
    vector_iterator.op_add 64 (⟨1, 0, 3⟩ : vector_iterator Int 3) (-1) = ⟨1, 2 ^ 64 - 1, 3⟩ :=
  ⟨by decide,
   @C22_steps_are_undone_by_their_inverse Int 3 64 1 0 3 (-1) (by decide),
   by decide⟩

/-- C23: the stored upper bound has no part in any result.  For two iterators with the same
engine pointer `e` and position `p` and the bounds `u1` and `u2`, and two more with the same
engine pointer `f` and position `q` and the bounds `v1` and `v2`: dereference and indexing give
the same, the difference and each of the six comparisons of the first pair member with the second
give the same under either choice of bounds, and the two iterators at `(e, p)` compare equal;
every traversal operation gives an iterator whose engine pointer and position do not depend on
the bound and whose bound is the bound of the receiver.  It holds for the mutable and for the
const iterator. -/
theorem C23_upper_bound_is_never_read (w : Nat) (store : engine_store (fs_vector_engine T N))
    (e p f q u1 u2 v1 v2 n : Nat) (k : Int) :
    (vector_iterator.op_deref store (⟨e, p, u1⟩ : vector_iterator T N)
          = vector_iterator.op_deref store ⟨e, p, u2⟩ ∧
      vector_iterator.op_index w store
            (⟨e, p, u1⟩ : vector_iterator T N) n
          = vector_iterator.op_index w store ⟨e, p, u2⟩ n ∧
      vector_iterator.op_diff w (⟨e, p, u1⟩ : vector_iterator T N) ⟨f, q, v1⟩
          = vector_iterator.op_diff w (⟨e, p, u2⟩ : vector_iterator T N) ⟨f, q, v2⟩ ∧
      vector_iterator.op_eq (⟨e, p, u1⟩ : vector_iterator T N) ⟨f, q, v1⟩
          = vector_iterator.op_eq (⟨e, p, u2⟩ : vector_iterator T N) ⟨f, q, v2⟩ ∧
      vector_iterator.op_ne (⟨e, p, u1⟩ : vector_iterator T N) ⟨f, q, v1⟩
          = vector_iterator.op_ne (⟨e, p, u2⟩ : vector_iterator T N) ⟨f, q, v2⟩ ∧
      vector_iterator.op_lt (⟨e, p, u1⟩ : vector_iterator T N) ⟨f, q, v1⟩
          = vector_iterator.op_lt (⟨e, p, u2⟩ : vector_iterator T N) ⟨f, q, v2⟩ ∧
      vector_iterator.op_le (⟨e, p, u1⟩ : vector_iterator T N) ⟨f, q, v1⟩
          = vector_iterator.op_le (⟨e, p, u2⟩ : vector_iterator T N) ⟨f, q, v2⟩ ∧
      vector_iterator.op_gt (⟨e, p, u1⟩ : vector_iterator T N) ⟨f, q, v1⟩
          = vector_iterator.op_gt (⟨e, p, u2⟩ : vector_iterator T N) ⟨f, q, v2⟩ ∧
      vector_iterator.op_ge (⟨e, p, u1⟩ : vector_iterator T N) ⟨f, q, v1⟩
          = vector_iterator.op_ge (⟨e, p, u2⟩ : vector_iterator T N) ⟨f, q, v2⟩ ∧
      vector_iterator.op_eq (⟨e, p, u1⟩ : vector_iterator T N) ⟨e, p, u2⟩ = true ∧
      (∃ t : Nat, ∀ u : Nat,
          vector_iterator.op_pre_inc w (⟨e, p, u⟩ : vector_iterator T N)
            = ⟨e, t, u⟩) ∧
      (∃ t : Nat, ∀ u : Nat,
          vector_iterator.op_pre_dec w (⟨e, p, u⟩ : vector_iterator T N)
            = ⟨e, t, u⟩) ∧
      (∃ t s : Nat, ∀ u : Nat,
          vector_iterator.op_post_inc w (⟨e, p, u⟩ : vector_iterator T N)
            = (⟨e, t, u⟩, ⟨e, s, u⟩)) ∧
      (∃ t s : Nat, ∀ u : Nat,
          vector_iterator.op_post_dec w (⟨e, p, u⟩ : vector_iterator T N)
            = (⟨e, t, u⟩, ⟨e, s, u⟩)) ∧
      (∃ t : Nat, ∀ u : Nat,
          vector_iterator.op_add w
              (⟨e, p, u⟩ : vector_iterator T N) k
            = ⟨e, t, u⟩) ∧
      (∃ t : Nat, ∀ u : Nat,
          vector_iterator.op_sub w
              (⟨e, p, u⟩ : vector_iterator T N) k
            = ⟨e, t, u⟩) ∧
      (∃ t : Nat, ∀ u : Nat,
          vector_iterator.op_add_assign w
              (⟨e, p, u⟩ : vector_iterator T N) k
            = ⟨e, t, u⟩) ∧
      (∃ t : Nat, ∀ u : Nat,
          vector_iterator.op_sub_assign w
              (⟨e, p, u⟩ : vector_iterator T N) k
            = ⟨e, t, u⟩)) ∧
    (vector_const_iterator.op_deref store (⟨e, p, u1⟩ : vector_const_iterator T N)
          = vector_const_iterator.op_deref store ⟨e, p, u2⟩ ∧
      vector_const_iterator.op_index w store
            (⟨e, p, u1⟩ : vector_const_iterator T N) n
          = vector_const_iterator.op_index w store ⟨e, p, u2⟩ n ∧
      vector_const_iterator.op_diff w (⟨e, p, u1⟩ : vector_const_iterator T N) ⟨f, q, v1⟩
          = vector_const_iterator.op_diff w (⟨e, p, u2⟩ : vector_const_iterator T N) ⟨f, q, v2⟩ ∧
      vector_const_iterator.op_eq (⟨e, p, u1⟩ : vector_const_iterator T N) ⟨f, q, v1⟩
          = vector_const_iterator.op_eq (⟨e, p, u2⟩ : vector_const_iterator T N) ⟨f, q, v2⟩ ∧
      vector_const_iterator.op_ne (⟨e, p, u1⟩ : vector_const_iterator T N) ⟨f, q, v1⟩
          = vector_const_iterator.op_ne (⟨e, p, u2⟩ : vector_const_iterator T N) ⟨f, q, v2⟩ ∧
      vector_const_iterator.op_lt (⟨e, p, u1⟩ : vector_const_iterator T N) ⟨f, q, v1⟩
          = vector_const_iterator.op_lt (⟨e, p, u2⟩ : vector_const_iterator T N) ⟨f, q, v2⟩ ∧
      vector_const_iterator.op_le (⟨e, p, u1⟩ : vector_const_iterator T N) ⟨f, q, v1⟩
          = vector_const_iterator.op_le (⟨e, p, u2⟩ : vector_const_iterator T N) ⟨f, q, v2⟩ ∧
      vector_const_iterator.op_gt (⟨e, p, u1⟩ : vector_const_iterator T N) ⟨f, q, v1⟩
          = vector_const_iterator.op_gt (⟨e, p, u2⟩ : vector_const_iterator T N) ⟨f, q, v2⟩ ∧
      vector_const_iterator.op_ge (⟨e, p, u1⟩ : vector_const_iterator T N) ⟨f, q, v1⟩
          = vector_const_iterator.op_ge (⟨e, p, u2⟩ : vector_const_iterator T N) ⟨f, q, v2⟩ ∧
      vector_const_iterator.op_eq (⟨e, p, u1⟩ : vector_const_iterator T N) ⟨e, p, u2⟩ = true ∧
      (∃ t : Nat, ∀ u : Nat,
          vector_const_iterator.op_pre_inc w (⟨e, p, u⟩ : vector_const_iterator T N)
            = ⟨e, t, u⟩) ∧
      (∃ t : Nat, ∀ u : Nat,
          vector_const_iterator.op_pre_dec w (⟨e, p, u⟩ : vector_const_iterator T N)
            = ⟨e, t, u⟩) ∧
      (∃ t s : Nat, ∀ u : Nat,
          vector_const_iterator.op_post_inc w (⟨e, p, u⟩ : vector_const_iterator T N)
            = (⟨e, t, u⟩, ⟨e, s, u⟩)) ∧
      (∃ t s : Nat, ∀ u : Nat,
          vector_const_iterator.op_post_dec w (⟨e, p, u⟩ : vector_const_iterator T N)
            = (⟨e, t, u⟩, ⟨e, s, u⟩)) ∧
      (∃ t : Nat, ∀ u : Nat,
          vector_const_iterator.op_add w
              (⟨e, p, u⟩ : vector_const_iterator T N) k
            = ⟨e, t, u⟩) ∧
      (∃ t : Nat, ∀ u : Nat,
          vector_const_iterator.op_sub w
              (⟨e, p, u⟩ : vector_const_iterator T N) k
            = ⟨e, t, u⟩) ∧
      (∃ t : Nat, ∀ u : Nat,
          vector_const_iterator.op_add_assign w
              (⟨e, p, u⟩ : vector_const_iterator T N) k
            = ⟨e, t, u⟩) ∧
      (∃ t : Nat, ∀ u : Nat,
          vector_const_iterator.op_sub_assign w
              (⟨e, p, u⟩ : vector_const_iterator T N) k
            = ⟨e, t, u⟩)) := by
  constructor
  · refine ⟨rfl, rfl, rfl, rfl, rfl, rfl, rfl, rfl, rfl, ?_,
      ⟨to_size_type w ((p : Int) + 1), fun _ => rfl⟩,
      ⟨to_size_type w ((p : Int) - 1), fun _ => rfl⟩,
      ⟨to_size_type w ((p : Int) + 1), p, fun _ => rfl⟩,
      ⟨to_size_type w ((p : Int) - 1), p, fun _ => rfl⟩,
      ⟨to_size_type w ((p : Int) + k), fun _ => rfl⟩,
      ⟨to_size_type w ((p : Int) - k), fun _ => rfl⟩,
      ⟨to_size_type w ((p : Int) + k), fun _ => rfl⟩,
      ⟨to_size_type w ((p : Int) - k), fun _ => rfl⟩⟩
    simp [vector_iterator.op_eq, vector_iterator.equals]
  · refine ⟨rfl, rfl, rfl, rfl, rfl, rfl, rfl, rfl, rfl, ?_,
      ⟨to_size_type w ((p : Int) + 1), fun _ => rfl⟩,
      ⟨to_size_type w ((p : Int) - 1), fun _ => rfl⟩,
      ⟨to_size_type w ((p : Int) + 1), p, fun _ => rfl⟩,
      ⟨to_size_type w ((p : Int) - 1), p, fun _ => rfl⟩,
      ⟨to_size_type w ((p : Int) + k), fun _ => rfl⟩,
      ⟨to_size_type w ((p : Int) - k), fun _ => rfl⟩,
      ⟨to_size_type w ((p : Int) + k), fun _ => rfl⟩,
      ⟨to_size_type w ((p : Int) - k), fun _ => rfl⟩⟩
    simp [vector_const_iterator.op_eq, vector_const_iterator.equals]

/-- C23 with words of 64 bits over the engine `[10, 20, 30]` living at address 1: the iterators
at position 1 with the bounds 3 and 7 dereference to the same element, 20, and compare equal. -/
theorem C23_upper_bound_is_never_read_witness :
    ((vector_iterator.op_deref example_store (⟨1, 1, 3⟩ : vector_iterator Int 3)
          = vector_iterator.op_deref example_store ⟨1, 1, 7⟩ ∧
      vector_iterator.op_index 64 example_store
            (⟨1, 1, 3⟩ : vector_iterator Int 3) 1
          = vector_iterator.op_index 64 example_store ⟨1, 1, 7⟩ 1 ∧
      vector_iterator.op_diff 64 (⟨1, 1, 3⟩ : vector_iterator Int 3) ⟨1, 2, 3⟩
          = vector_iterator.op_diff 64 (⟨1, 1, 7⟩ : vector_iterator Int 3) ⟨1, 2, 5⟩ ∧
      vector_iterator.op_eq (⟨1, 1, 3⟩ : vector_iterator Int 3) ⟨1, 2, 3⟩
          = vector_iterator.op_eq (⟨1, 1, 7⟩ : vector_iterator Int 3) ⟨1, 2, 5⟩ ∧
      vector_iterator.op_ne (⟨1, 1, 3⟩ : vector_iterator Int 3) ⟨1, 2, 3⟩
          = vector_iterator.op_ne (⟨1, 1, 7⟩ : vector_iterator Int 3) ⟨1, 2, 5⟩ ∧
      vector_iterator.op_lt (⟨1, 1, 3⟩ : vector_iterator Int 3) ⟨1, 2, 3⟩
          = vector_iterator.op_lt (⟨1, 1, 7⟩ : vector_iterator Int 3) ⟨1, 2, 5⟩ ∧
      vector_iterator.op_le (⟨1, 1, 3⟩ : vector_iterator Int 3) ⟨1, 2, 3⟩
          = vector_iterator.op_le (⟨1, 1, 7⟩ : vector_iterator Int 3) ⟨1, 2, 5⟩ ∧
      vector_iterator.op_gt (⟨1, 1, 3⟩ : vector_iterator Int 3) ⟨1, 2, 3⟩
          = vector_iterator.op_gt (⟨1, 1, 7⟩ : vector_iterator Int 3) ⟨1, 2, 5⟩ ∧
      vector_iterator.op_ge (⟨1, 1, 3⟩ : vector_iterator Int 3) ⟨1, 2, 3⟩
          = vector_iterator.op_ge (⟨1, 1, 7⟩ : vector_iterator Int 3) ⟨1, 2, 5⟩ ∧
      vector_iterator.op_eq (⟨1, 1, 3⟩ : vector_iterator Int 3) ⟨1, 1, 7⟩ = true ∧
      (∃ t : Nat, ∀ u : Nat,
          vector_iterator.op_pre_inc 64 (⟨1, 1, u⟩ : vector_iterator Int 3)
            = ⟨1, t, u⟩) ∧
      (∃ t : Nat, ∀ u : Nat,
          vector_iterator.op_pre_dec 64 (⟨1, 1, u⟩ : vector_iterator Int 3)
            = ⟨1, t, u⟩) ∧
      (∃ t s : Nat, ∀ u : Nat,
          vector_iterator.op_post_inc 64 (⟨1, 1, u⟩ : vector_iterator Int 3)
            = (⟨1, t, u⟩, ⟨1, s, u⟩)) ∧
      (∃ t s : Nat, ∀ u : Nat,
          vector_iterator.op_post_dec 64 (⟨1, 1, u⟩ : vector_iterator Int 3)
            = (⟨1, t, u⟩, ⟨1, s, u⟩)) ∧
      (∃ t : Nat, ∀ u : Nat,
          vector_iterator.op_add 64
              (⟨1, 1, u⟩ : vector_iterator Int 3) (-1)
            = ⟨1, t, u⟩) ∧
      (∃ t : Nat, ∀ u : Nat,
          vector_iterator.op_sub 64
              (⟨1, 1, u⟩ : vector_iterator Int 3) (-1)
            = ⟨1, t, u⟩) ∧
      (∃ t : Nat, ∀ u : Nat,
          vector_iterator.op_add_assign 64
              (⟨1, 1, u⟩ : vector_iterator Int 3) (-1)
            = ⟨1, t, u⟩) ∧
      (∃ t : Nat, ∀ u : Nat,
          vector_iterator.op_sub_assign 64
              (⟨1, 1, u⟩ : vector_iterator Int 3) (-1)
            = ⟨1, t, u⟩)) ∧
    (vector_const_iterator.op_deref example_store (⟨1, 1, 3⟩ : vector_const_iterator Int 3)
          = vector_const_iterator.op_deref example_store ⟨1, 1, 7⟩ ∧
      vector_const_iterator.op_index 64 example_store
            (⟨1, 1, 3⟩ : vector_const_iterator Int 3) 1
          = vector_const_iterator.op_index 64 example_store ⟨1, 1, 7⟩ 1 ∧
      vector_const_iterator.op_diff 64 (⟨1, 1, 3⟩ : vector_const_iterator Int 3) ⟨1, 2, 3⟩
          = vector_const_iterator.op_diff 64 (⟨1, 1, 7⟩ : vector_const_iterator Int 3) ⟨1, 2, 5⟩ ∧
      vector_const_iterator.op_eq (⟨1, 1, 3⟩ : vector_const_iterator Int 3) ⟨1, 2, 3⟩
          = vector_const_iterator.op_eq (⟨1, 1, 7⟩ : vector_const_iterator Int 3) ⟨1, 2, 5⟩ ∧
      vector_const_iterator.op_ne (⟨1, 1, 3⟩ : vector_const_iterator Int 3) ⟨1, 2, 3⟩
          = vector_const_iterator.op_ne (⟨1, 1, 7⟩ : vector_const_iterator Int 3) ⟨1, 2, 5⟩ ∧
      vector_const_iterator.op_lt (⟨1, 1, 3⟩ : vector_const_iterator Int 3) ⟨1, 2, 3⟩
          = vector_const_iterator.op_lt (⟨1, 1, 7⟩ : vector_const_iterator Int 3) ⟨1, 2, 5⟩ ∧
      vector_const_iterator.op_le (⟨1, 1, 3⟩ : vector_const_iterator Int 3) ⟨1, 2, 3⟩
          = vector_const_iterator.op_le (⟨1, 1, 7⟩ : vector_const_iterator Int 3) ⟨1, 2, 5⟩ ∧
      vector_const_iterator.op_gt (⟨1, 1, 3⟩ : vector_const_iterator Int 3) ⟨1, 2, 3⟩
          = vector_const_iterator.op_gt (⟨1, 1, 7⟩ : vector_const_iterator Int 3) ⟨1, 2, 5⟩ ∧
      vector_const_iterator.op_ge (⟨1, 1, 3⟩ : vector_const_iterator Int 3) ⟨1, 2, 3⟩
          = vector_const_iterator.op_ge (⟨1, 1, 7⟩ : vector_const_iterator Int 3) ⟨1, 2, 5⟩ ∧
      vector_const_iterator.op_eq (⟨1, 1, 3⟩ : vector_const_iterator Int 3) ⟨1, 1, 7⟩ = true ∧
      (∃ t : Nat, ∀ u : Nat,
          vector_const_iterator.op_pre_inc 64 (⟨1, 1, u⟩ : vector_const_iterator Int 3)
            = ⟨1, t, u⟩) ∧
      (∃ t : Nat, ∀ u : Nat,
          vector_const_iterator.op_pre_dec 64 (⟨1, 1, u⟩ : vector_const_iterator Int 3)
            = ⟨1, t, u⟩) ∧
      (∃ t s : Nat, ∀ u : Nat,
          vector_const_iterator.op_post_inc 64 (⟨1, 1, u⟩ : vector_const_iterator Int 3)
            = (⟨1, t, u⟩, ⟨1, s, u⟩)) ∧
      (∃ t s : Nat, ∀ u : Nat,
          vector_const_iterator.op_post_dec 64 (⟨1, 1, u⟩ : vector_const_iterator Int 3)
            = (⟨1, t, u⟩, ⟨1, s, u⟩)) ∧
      (∃ t : Nat, ∀ u : Nat,
          vector_const_iterator.op_add 64
              (⟨1, 1, u⟩ : vector_const_iterator Int 3) (-1)
            = ⟨1, t, u⟩) ∧
      (∃ t : Nat, ∀ u : Nat,
          vector_const_iterator.op_sub 64
              (⟨1, 1, u⟩ : vector_const_iterator Int 3) (-1)
            = ⟨1, t, u⟩) ∧
      (∃ t : Nat, ∀ u : Nat,
          vector_const_iterator.op_add_assign 64
              (⟨1, 1, u⟩ : vector_const_iterator Int 3) (-1)
            = ⟨1, t, u⟩) ∧
      (∃ t : Nat, ∀ u : Nat,
          vector_const_iterator.op_sub_assign 64
              (⟨1, 1, u⟩ : vector_const_iterator Int 3) (-1)
            = ⟨1, t, u⟩))) ∧
    vector_iterator.op_deref example_store (⟨1, 1, 7⟩ : vector_iterator Int 3) = some 20 :=
  ⟨@C23_upper_bound_is_never_read Int 3 64 example_store 1 1 1 2 3 7 3 5 1 (-1), by decide⟩

end order_claims

end STD_LA
